import Mathlib

/-!
# Countdown timer firmware (`newavr-main.c`)

A shallow embedding of the AVR countdown-timer program and the properties
proved about it.

* The six `volatile uint8_t` globals and the memory-mapped registers the
  program touches are the fields of `State`; every function of the source is
  a function on `State`.
* 8-bit values are natural numbers; arithmetic that can leave the 8-bit range
  is reduced `% 256` (`% 65536` for the 16-bit speaker counter).
* The peripheral bit masks come from the device header `<avr/io.h>`, which is
  not part of the repository: they are the fields of `Header`, a parameter of
  every function that uses one.  `avr_header` holds the values of the
  megaAVR 0-series header.
* The local `spkrCount` of `play_sound` is a field of `State` as well, so that
  the loops of `play_sound` are functions from states to states.
* Three fields of `State` are instrumentation and do not exist in the
  program: `play_sound_calls` counts the entries into `play_sound`,
  `clock_us` adds up the busy-wait delays, and `log` records the writes to
  the speaker line together with the delays.
-/

namespace Timer

/-! ## Device header -/

/-- Modelled from the spec: the device header `<avr/io.h>`, which defines the pin
masks, is not in the repository; the line of pin `n` is bit `n` of the port
registers, so `PINn_bm` is `1 << n`. -/
def PIN0_bm : Nat := 0x01

/-- Mask of pin 1 (see `PIN0_bm`). -/
def PIN1_bm : Nat := 0x02

/-- Mask of pin 2 (see `PIN0_bm`). -/
def PIN2_bm : Nat := 0x04

/-- Mask of pin 3 (see `PIN0_bm`). -/
def PIN3_bm : Nat := 0x08

/-- Mask of pin 4 (see `PIN0_bm`). -/
def PIN4_bm : Nat := 0x10

/-- Mask of pin 5 (see `PIN0_bm`). -/
def PIN5_bm : Nat := 0x20

/-- Mask of pin 6 (see `PIN0_bm`). -/
def PIN6_bm : Nat := 0x40

/-- Mask of pin 7 (see `PIN0_bm`). -/
def PIN7_bm : Nat := 0x80

/-- The peripheral constants of the device header `<avr/io.h>` that the program
uses.  The header is not in the repository, so the functions below take these
values as a parameter. -/
structure Header where
  /-- Enable bit of `TCA0.SINGLE.CTRLA`. -/
  TCA_SINGLE_ENABLE_bm : Nat
  /-- Overflow bit of `TCA0.SINGLE.INTCTRL` and `INTFLAGS`. -/
  TCA_SINGLE_OVF_bm : Nat
  /-- Restart command of `TCA0.SINGLE.CTRLESET`. -/
  TCA_SINGLE_CMD_RESTART_gc : Nat
  /-- Normal waveform generation mode of `TCA0.SINGLE.CTRLB`. -/
  TCA_SINGLE_WGMODE_NORMAL_gc : Nat
  /-- Count-on-event bit of `TCA0.SINGLE.EVCTRL`. -/
  TCA_SINGLE_CNTEI_bm : Nat
  /-- Clock select, system clock divided by 64. -/
  TCA_SINGLE_CLKSEL_DIV64_gc : Nat
  /-- Pull-up enable bit of a `PINnCTRL` register. -/
  PORT_PULLUPEN_bm : Nat
  /-- Input-sense field of a `PINnCTRL` register. -/
  PORT_ISC_gm : Nat
  /-- Input-sense configuration: interrupt on the rising edge. -/
  PORT_ISC_RISING_gc : Nat
  /-- Input-sense configuration: digital input buffer disabled. -/
  PORT_ISC_INPUT_DISABLE_gc : Nat
deriving DecidableEq, Repr

/-- The values of the megaAVR 0-series device header (ATmega4809). -/
def avr_header : Header where
  TCA_SINGLE_ENABLE_bm := 0x01
  TCA_SINGLE_OVF_bm := 0x01
  TCA_SINGLE_CMD_RESTART_gc := 0x08
  TCA_SINGLE_WGMODE_NORMAL_gc := 0x00
  TCA_SINGLE_CNTEI_bm := 0x01
  TCA_SINGLE_CLKSEL_DIV64_gc := 0x0A
  PORT_PULLUPEN_bm := 0x08
  PORT_ISC_gm := 0x07
  PORT_ISC_RISING_gc := 0x02
  PORT_ISC_INPUT_DISABLE_gc := 0x04

/-- The 8-bit view of C's `~m`: the operand of `reg &= ~m` and of `reg & ~m`
on an 8-bit register. -/
def compl8 (m : Nat) : Nat := 0xFF ^^^ (m % 256)

/-! ## Program state -/

/-- What the instrumentation records: a write of the speaker line PD1 or a
busy-wait delay. -/
inductive Event where
  /-- `PORTD.OUT |= PIN1_bm`. -/
  | pd1_high
  /-- `PORTD.OUT &= ~PIN1_bm`. -/
  | pd1_low
  /-- `_delay_ms`, in microseconds. -/
  | delay (us : Nat)
deriving DecidableEq, Repr

/-- The globals of `newavr-main.c`, the registers it accesses, and the
instrumentation. -/
structure State where
  /-- `volatile uint8_t count`: time count. -/
  count : Nat
  /-- `volatile uint8_t start_button_pressed`: start/stop flag. -/
  start_button_pressed : Nat
  /-- `volatile uint8_t is_running`: running (non-zero) or setting mode (zero). -/
  is_running : Nat
  /-- `volatile uint8_t count_changed`: flag for when the count changes value. -/
  count_changed : Nat
  /-- `volatile uint8_t incr_1_pressed`: flag of the increment button. -/
  incr_1_pressed : Nat
  /-- `volatile uint8_t incr_5_pressed`: flag of the up5 button. -/
  incr_5_pressed : Nat
  /-- `PORTA.DIR`. -/
  PORTA_DIR : Nat
  /-- `PORTA.OUT`, also written through `PORTA.OUTSET` and `PORTA.OUTCLR`. -/
  PORTA_OUT : Nat
  /-- `PORTC.DIR`. -/
  PORTC_DIR : Nat
  /-- `PORTC.INTFLAGS`. -/
  PORTC_INTFLAGS : Nat
  /-- `PORTC.PIN0CTRL`. -/
  PORTC_PIN0CTRL : Nat
  /-- `PORTC.PIN1CTRL`. -/
  PORTC_PIN1CTRL : Nat
  /-- `PORTD.DIR`. -/
  PORTD_DIR : Nat
  /-- `PORTD.OUT`, also written through `PORTD.OUTSET` and `PORTD.OUTCLR`. -/
  PORTD_OUT : Nat
  /-- `PORTD.INTFLAGS`. -/
  PORTD_INTFLAGS : Nat
  /-- `PORTD.PIN6CTRL`. -/
  PORTD_PIN6CTRL : Nat
  /-- `TCA0.SINGLE.CTRLA`. -/
  TCA0_CTRLA : Nat
  /-- `TCA0.SINGLE.CTRLB`. -/
  TCA0_CTRLB : Nat
  /-- `TCA0.SINGLE.CTRLE`, written through `TCA0.SINGLE.CTRLESET`. -/
  TCA0_CTRLE : Nat
  /-- `TCA0.SINGLE.EVCTRL`. -/
  TCA0_EVCTRL : Nat
  /-- `TCA0.SINGLE.INTCTRL`. -/
  TCA0_INTCTRL : Nat
  /-- `TCA0.SINGLE.INTFLAGS`. -/
  TCA0_INTFLAGS : Nat
  /-- `TCA0.SINGLE.PER` (16 bits). -/
  TCA0_PER : Nat
  /-- The local `uint16_t spkrCount` of `play_sound`. -/
  spkrCount : Nat
  /-- Instrumentation: how many times `play_sound` has been entered. -/
  play_sound_calls : Nat
  /-- Instrumentation: the sum of all busy-wait delays, in microseconds. -/
  clock_us : Nat
  /-- Instrumentation: the speaker-line writes and delays, oldest first. -/
  log : List Event
deriving DecidableEq, Repr

/-- The state at power-on: the globals have their initialisers (all `0`) and
the registers their reset value `0`. -/
def power_on : State where
  count := 0
  start_button_pressed := 0
  is_running := 0
  count_changed := 0
  incr_1_pressed := 0
  incr_5_pressed := 0
  PORTA_DIR := 0
  PORTA_OUT := 0
  PORTC_DIR := 0
  PORTC_INTFLAGS := 0
  PORTC_PIN0CTRL := 0
  PORTC_PIN1CTRL := 0
  PORTD_DIR := 0
  PORTD_OUT := 0
  PORTD_INTFLAGS := 0
  PORTD_PIN6CTRL := 0
  TCA0_CTRLA := 0
  TCA0_CTRLB := 0
  TCA0_CTRLE := 0
  TCA0_EVCTRL := 0
  TCA0_INTCTRL := 0
  TCA0_INTFLAGS := 0
  TCA0_PER := 0
  spkrCount := 0
  play_sound_calls := 0
  clock_us := 0
  log := []

/-- The busy-wait `_delay_ms`, with the time given in microseconds. -/
def delay_us (us : Nat) (s : State) : State :=
  { s with clock_us := s.clock_us + us, log := s.log ++ [Event.delay us] }

/-- A write of `v` to `PORTA.OUTSET`: the bits of `v` are set in `PORTA.OUT`. -/
def PORTA_OUTSET (v : Nat) (s : State) : State :=
  { s with PORTA_OUT := s.PORTA_OUT ||| v }

/-- A write of `v` to `PORTA.OUTCLR`: the bits of `v` are cleared in `PORTA.OUT`. -/
def PORTA_OUTCLR (v : Nat) (s : State) : State :=
  { s with PORTA_OUT := s.PORTA_OUT &&& compl8 v }

/-- A write of `v` to `PORTD.OUTSET`: the bits of `v` are set in `PORTD.OUT`. -/
def PORTD_OUTSET (v : Nat) (s : State) : State :=
  { s with PORTD_OUT := s.PORTD_OUT ||| v }

/-- A write of `v` to `PORTD.OUTCLR`: the bits of `v` are cleared in `PORTD.OUT`. -/
def PORTD_OUTCLR (v : Nat) (s : State) : State :=
  { s with PORTD_OUT := s.PORTD_OUT &&& compl8 v }

/-- A write of `v` to an interrupt-flag register holding `flags`: the flags
whose bit is `1` in `v` are cleared, the others keep their value. -/
def intflags_write (flags v : Nat) : Nat := flags &&& compl8 v

/-! ## The program -/

/-- `uint8_t button_debounce(uint8_t port, uint8_t pin_bm)`: checks that the
button release is settled.  `port` is the value the caller read; the body
waits 20 ms and tests the same value again. -/
def button_debounce (port pin_bm : Nat) (s : State) : Nat × State :=
  if port &&& pin_bm ≠ 0 then
    let s := delay_us 20000 s
    if port &&& pin_bm ≠ 0 then (1, s) else (0, s)
  else (0, s)

/-- `ISR(TCA0_OVF_vect)`: the timer reached one second. -/
def ISR_TCA0_OVF_vect (H : Header) (s : State) : State :=
  let s := { s with count_changed := 1 }
  { s with TCA0_INTFLAGS :=
      intflags_write s.TCA0_INTFLAGS (s.TCA0_INTFLAGS &&& H.TCA_SINGLE_OVF_bm) }

/-- `ISR(PORTC_PORT_vect)`: the increment and up5 buttons.  `PORTC_IN t` is
the content of the input register `PORTC.IN` at time `t` of `clock_us`. -/
def ISR_PORTC_PORT_vect (PORTC_IN : Nat → Nat) (s : State) : State :=
  if s.PORTC_INTFLAGS &&& PIN0_bm ≠ 0 then
    let r := button_debounce (PORTC_IN s.clock_us) PIN0_bm s
    let s := if r.1 ≠ 0 then { r.2 with incr_1_pressed := 1 } else r.2
    { s with PORTC_INTFLAGS :=
        intflags_write s.PORTC_INTFLAGS (s.PORTC_INTFLAGS &&& PIN0_bm) }
  else if s.PORTC_INTFLAGS &&& PIN1_bm ≠ 0 then
    let r := button_debounce (PORTC_IN s.clock_us) PIN1_bm s
    let s := if r.1 ≠ 0 then { r.2 with incr_5_pressed := 1 } else r.2
    { s with PORTC_INTFLAGS :=
        intflags_write s.PORTC_INTFLAGS (s.PORTC_INTFLAGS &&& PIN1_bm) }
  else s

/-- `ISR(PORTD_PORT_vect)`: the start/cancel button.  `PORTC_IN t` is the
content of `PORTC.IN` at time `t`; the handler reads no other input. -/
def ISR_PORTD_PORT_vect (PORTC_IN : Nat → Nat) (s : State) : State :=
  if s.PORTD_INTFLAGS &&& PIN6_bm ≠ 0 then
    let r := button_debounce (PORTC_IN s.clock_us) PIN0_bm s
    let s := if r.1 ≠ 0 then { r.2 with start_button_pressed := 1 } else r.2
    { s with PORTD_INTFLAGS :=
        intflags_write s.PORTD_INTFLAGS (s.PORTD_INTFLAGS &&& PIN6_bm) }
  else s

/-- `void init_io()`: pin directions, pull-ups and edge interrupts. -/
def init_io (H : Header) (s : State) : State :=
  let s := { s with PORTA_DIR := s.PORTA_DIR |||
    (PIN2_bm ||| PIN3_bm ||| PIN4_bm ||| PIN5_bm ||| PIN6_bm ||| PIN7_bm) }
  let s := { s with PORTD_DIR := s.PORTD_DIR ||| (PIN5_bm ||| PIN7_bm ||| PIN1_bm) }
  let s := { s with PORTC_DIR := s.PORTC_DIR &&& compl8 (PIN0_bm ||| PIN1_bm) }
  let s := { s with PORTD_DIR := s.PORTD_DIR &&& compl8 PIN6_bm }
  let s := { s with PORTC_PIN0CTRL :=
    s.PORTC_PIN0CTRL ||| (H.PORT_PULLUPEN_bm ||| H.PORT_ISC_RISING_gc) }
  let s := { s with PORTC_PIN1CTRL :=
    s.PORTC_PIN1CTRL ||| (H.PORT_PULLUPEN_bm ||| H.PORT_ISC_RISING_gc) }
  { s with PORTD_PIN6CTRL :=
    s.PORTD_PIN6CTRL ||| (H.PORT_PULLUPEN_bm ||| H.PORT_ISC_RISING_gc) }

/-- `void init_tca()`: set up the timer. -/
def init_tca (H : Header) (s : State) : State :=
  let s := { s with TCA0_INTCTRL := H.TCA_SINGLE_OVF_bm }
  let s := { s with TCA0_CTRLB := H.TCA_SINGLE_WGMODE_NORMAL_gc }
  let s := { s with TCA0_EVCTRL := s.TCA0_EVCTRL &&& compl8 H.TCA_SINGLE_CNTEI_bm }
  let s := { s with TCA0_PER := 52082 }
  { s with TCA0_CTRLA := H.TCA_SINGLE_CLKSEL_DIV64_gc }

/-- `void display_count_value()`: turns on the LEDs of the bits of `count`. -/
def display_count_value (s : State) : State :=
  let s := PORTA_OUTCLR
    (PIN2_bm ||| PIN3_bm ||| PIN4_bm ||| PIN5_bm ||| PIN6_bm ||| PIN7_bm) s
  let s := PORTD_OUTCLR (PIN5_bm ||| PIN7_bm) s
  let s := if s.count &&& 1 ≠ 0 then PORTD_OUTSET PIN7_bm s else s
  let s := if s.count &&& 2 ≠ 0 then PORTD_OUTSET PIN5_bm s else s
  let s := if s.count &&& 4 ≠ 0 then PORTA_OUTSET PIN7_bm s else s
  let s := if s.count &&& 8 ≠ 0 then PORTA_OUTSET PIN6_bm s else s
  let s := if s.count &&& 16 ≠ 0 then PORTA_OUTSET PIN5_bm s else s
  let s := if s.count &&& 32 ≠ 0 then PORTA_OUTSET PIN4_bm s else s
  let s := if s.count &&& 64 ≠ 0 then PORTA_OUTSET PIN3_bm s else s
  let s := if s.count &&& 128 ≠ 0 then PORTA_OUTSET PIN2_bm s else s
  s

/-- `void start_timer()`: executed when the start button is pressed in
setting mode. -/
def start_timer (H : Header) (s : State) : State :=
  let s := { s with PORTC_PIN0CTRL := s.PORTC_PIN0CTRL ||| H.PORT_ISC_INPUT_DISABLE_gc }
  let s := { s with PORTC_PIN1CTRL := s.PORTC_PIN1CTRL ||| H.PORT_ISC_INPUT_DISABLE_gc }
  { s with TCA0_CTRLA := s.TCA0_CTRLA ||| H.TCA_SINGLE_ENABLE_bm }

/-- Both `while` loops of `play_sound`:
`while (spkrCount < limit) { PD1 high; delay; PD1 low; delay; spkrCount++; }`
with the 16-bit local `spkrCount`, which is kept in the state. -/
def spkr_while (limit : Nat) (hl : limit < 65536) (half_us : Nat) (s : State) : State :=
  if s.spkrCount < limit then
    let s := { s with PORTD_OUT := s.PORTD_OUT ||| PIN1_bm, log := s.log ++ [Event.pd1_high] }
    let s := delay_us half_us s
    let s := { s with PORTD_OUT := s.PORTD_OUT &&& compl8 PIN1_bm,
                      log := s.log ++ [Event.pd1_low] }
    let s := delay_us half_us s
    let s := { s with spkrCount := (s.spkrCount + 1) % 65536 }
    spkr_while limit hl half_us s
  else s
termination_by limit - s.spkrCount
decreasing_by
  simp only [delay_us]
  omega

/-- The `for (uint8_t i = 0; i < 3; i++)` loop of `play_sound`, from the
value `i` of the loop variable on. -/
def play_sound_for (i : Nat) (s : State) : State :=
  if i < 3 then
    let s := spkr_while 250 (by decide) 1276 s
    let s := delay_us 30000 s
    let s := { s with spkrCount := 0 }
    play_sound_for ((i + 1) % 256) s
  else s
termination_by 3 - i
decreasing_by omega

/-- `void play_sound()`: square waves on the speaker line PD1. -/
def play_sound (s : State) : State :=
  let s := { s with play_sound_calls := s.play_sound_calls + 1 }
  let s := { s with spkrCount := 0 }
  let s := play_sound_for 0 s
  let s := spkr_while 1590 (by decide) 1607 s
  { s with spkrCount := 0 }

/-- `void reset()`: executed when the start button is pressed while the timer
is running, or when the timer reaches zero. -/
def reset (H : Header) (s : State) : State :=
  let s := { s with TCA0_CTRLA := s.TCA0_CTRLA &&& compl8 H.TCA_SINGLE_ENABLE_bm }
  let s := { s with TCA0_CTRLE := s.TCA0_CTRLE ||| H.TCA_SINGLE_CMD_RESTART_gc }
  let s := { s with PORTC_PIN0CTRL :=
    (s.PORTC_PIN0CTRL &&& compl8 H.PORT_ISC_gm) ||| H.PORT_ISC_RISING_gc }
  let s := { s with PORTC_PIN1CTRL :=
    (s.PORTC_PIN1CTRL &&& compl8 H.PORT_ISC_gm) ||| H.PORT_ISC_RISING_gc }
  let s := { s with count := 0 }
  { s with count_changed := 1 }

/-- `void handle_button_presses()`: the work for the flags set by the button
handlers. -/
def handle_button_presses (H : Header) (s : State) : State :=
  let s :=
    if s.start_button_pressed ≠ 0 then
      let s := if s.is_running = 0 then start_timer H s else reset H s
      let s := { s with start_button_pressed := 0 }
      { s with is_running := if s.is_running = 0 then 1 else 0 }
    else s
  let s :=
    if s.incr_1_pressed ≠ 0 then
      let s :=
        if s.count < 255 then
          let s := { s with count := (s.count + 1) % 256 }
          { s with count_changed := 1 }
        else s
      { s with incr_1_pressed := 0 }
    else s
  let s :=
    if s.incr_5_pressed ≠ 0 then
      let s :=
        if s.count ≤ 250 then
          let s := { s with count := (s.count + 5) % 256 }
          { s with count_changed := 1 }
        else s
      { s with incr_5_pressed := 0 }
    else s
  s

/-- `void handle_count_change()`: runs when the count has changed; decrements
the count or deals with the timer running out. -/
def handle_count_change (H : Header) (s : State) : State :=
  let s :=
    if s.is_running ≠ 0 ∧ s.count > 0 then
      { s with count := (s.count + 255) % 256 }
    else if s.is_running ≠ 0 ∧ s.count ≤ 0 then
      let s := { s with is_running := 0 }
      let s := play_sound s
      reset H s
    else s
  let s := display_count_value s
  { s with count_changed := 0 }

/-- The initialisation of `main`: `init_io(); init_tca();`. -/
def main_init (H : Header) (s : State) : State :=
  init_tca H (init_io H s)

/-- One iteration of the `while (1)` loop of `main`. -/
def main_loop_iteration (H : Header) (s : State) : State :=
  let s := handle_button_presses H s
  if s.count_changed ≠ 0 then handle_count_change H s else s

/-- The timer overflow interrupt followed by one iteration of the main loop,
`n` times: `n` iterations that each begin with a pending tick. -/
def run_ticks (H : Header) : Nat → State → State
  | 0, s => s
  | n + 1, s => run_ticks H n (main_loop_iteration H (ISR_TCA0_OVF_vect H s))

/-! ## Interrupts and runs of the main loop -/

/-- The two input registers a button handler could read, as functions of the
time `clock_us`. -/
structure Inputs where
  /-- `PORTC.IN`: the lines of the increment (pin 0) and up5 (pin 1) buttons. -/
  PORTC_IN : Nat → Nat
  /-- `PORTD.IN`: the line of the start/cancel button (pin 6). -/
  PORTD_IN : Nat → Nat

/-- `ISR(PORTD_PORT_vect)` with both input registers at hand: the handler
passes `PORTC.IN` to `button_debounce` and never reads `PORTD.IN`. -/
def ISR_PORTD_PORT_vect_on (inp : Inputs) (s : State) : State :=
  ISR_PORTD_PORT_vect inp.PORTC_IN s

/-- What runs between two steps of the main loop. -/
inductive Interrupt where
  /-- The hardware raises interrupt flags: the three `INTFLAGS` registers get
  the contents `portc`, `portd` and `tca`. -/
  | raise (portc portd tca : Nat)
  /-- A run of `ISR(TCA0_OVF_vect)`. -/
  | tca0_ovf
  /-- A run of `ISR(PORTC_PORT_vect)` while `PORTC.IN` reads `PORTC_IN`. -/
  | portc_port (PORTC_IN : Nat → Nat)
  /-- A run of `ISR(PORTD_PORT_vect)` while `PORTC.IN` reads `PORTC_IN`. -/
  | portd_port (PORTC_IN : Nat → Nat)

/-- The effect of an interrupt on the state. -/
def interrupt (H : Header) : Interrupt → State → State
  | Interrupt.raise portc portd tca, s =>
    { s with PORTC_INTFLAGS := portc, PORTD_INTFLAGS := portd, TCA0_INTFLAGS := tca }
  | Interrupt.tca0_ovf, s => ISR_TCA0_OVF_vect H s
  | Interrupt.portc_port PORTC_IN, s => ISR_PORTC_PORT_vect PORTC_IN s
  | Interrupt.portd_port PORTC_IN, s => ISR_PORTD_PORT_vect PORTC_IN s

/-- The interrupts of a list, in order. -/
def interrupts (H : Header) : List Interrupt → State → State
  | [], s => s
  | i :: rest, s => interrupts H rest (interrupt H i s)

/-- A step of the program after initialisation: an interrupt, a completed call
of `handle_button_presses` or a completed call of `handle_count_change`. -/
inductive Op where
  /-- An interrupt. -/
  | irq (i : Interrupt)
  /-- A completed call of `handle_button_presses`. -/
  | button_presses
  /-- A completed call of `handle_count_change`. -/
  | count_change

/-- The effect of a step on the state. -/
def op (H : Header) : Op → State → State
  | Op.irq i, s => interrupt H i s
  | Op.button_presses, s => handle_button_presses H s
  | Op.count_change, s => handle_count_change H s

/-- The steps of a list, in order. -/
def run_ops (H : Header) : List Op → State → State
  | [], s => s
  | o :: rest, s => run_ops H rest (op H o s)

/-- The `while (1)` loop of `main` for as many iterations as the list has
entries: entry `k` holds the interrupts that run before iteration `k`. -/
def run_main_loop (H : Header) : List (List Interrupt) → State → State
  | [], s => s
  | irqs :: rest, s =>
    run_main_loop H rest (main_loop_iteration H (interrupts H irqs s))

/-- The function `handle_count_change` applied `k` times. -/
def count_changes (H : Header) : Nat → State → State
  | 0, s => s
  | k + 1, s => count_changes H k (handle_count_change H s)

/-! ## Observations -/

/-- The LED line that shows bit `i` of the count, read from the output
registers: bit 0 on PD7, bit 1 on PD5, bit 2 on PA7, bit 3 on PA6, bit 4 on
PA5, bit 5 on PA4, bit 6 on PA3, bit 7 on PA2. -/
def led_line (s : State) : Nat → Bool
  | 0 => s.PORTD_OUT.testBit 7
  | 1 => s.PORTD_OUT.testBit 5
  | 2 => s.PORTA_OUT.testBit 7
  | 3 => s.PORTA_OUT.testBit 6
  | 4 => s.PORTA_OUT.testBit 5
  | 5 => s.PORTA_OUT.testBit 4
  | 6 => s.PORTA_OUT.testBit 3
  | 7 => s.PORTA_OUT.testBit 2
  | _ => false

/-- A bouncing increment button: pin 0 of `PORTC.IN` reads high (released)
during the first 20 ms and low (pressed again) from then on. -/
def bounce_line (t : Nat) : Nat := if t < 20000 then PIN0_bm else 0

/-- A state in which the rising edge of the increment button has just raised
the interrupt flag of pin 0 of PORTC. -/
def released_state : State := { power_on with PORTC_INTFLAGS := PIN0_bm }

/-- The timer in setting mode showing `n`, with no request pending. -/
def setting_state (n : Nat) : State := { power_on with count := n }

/-- The timer in running mode with `n` seconds left and no request pending. -/
def running_state (n : Nat) : State := { power_on with is_running := 1, count := n }

/-- A running timer that shows 3 and has a pending increment request. -/
def running_request_state : State :=
  { power_on with is_running := 1, count := 3, incr_1_pressed := 1 }

/-- The log of `n` periods of a square wave on PD1 with half period
`half_us`: high, wait, low, wait. -/
def square_wave (n half_us : Nat) : List Event :=
  (List.replicate n
    [Event.pd1_high, Event.delay half_us, Event.pd1_low, Event.delay half_us]).flatten

/-- The alert tone as the claim describes it: three bursts of 250 periods,
each followed by a pause of 30 ms, then one burst of 1590 periods. -/
def alert_tone : List Event :=
  square_wave 250 1276 ++ [Event.delay 30000] ++
  (square_wave 250 1276 ++ [Event.delay 30000]) ++
  (square_wave 250 1276 ++ [Event.delay 30000]) ++
  square_wave 1590 1607

/-- The time `play_sound` takes, in microseconds. -/
def alert_tone_us : Nat := 3 * (250 * (2 * 1276) + 30000) + 1590 * (2 * 1607)

/-- The button requests of a state in setting mode with both increment flags
set. -/
def both_increments_state (n : Nat) : State :=
  { power_on with count := n, incr_1_pressed := 1, incr_5_pressed := 1 }

/-- The tick timer is enabled exactly in running mode: the enable bit of
`TCA0.SINGLE.CTRLA` is clear when `is_running` is zero and set otherwise. -/
def enable_matches_mode (H : Header) (s : State) : Prop :=
  (s.is_running = 0 → s.TCA0_CTRLA &&& H.TCA_SINGLE_ENABLE_bm = 0) ∧
  (s.is_running ≠ 0 → s.TCA0_CTRLA &&& H.TCA_SINGLE_ENABLE_bm = H.TCA_SINGLE_ENABLE_bm)

/-- Each of the eight LED lines shows its bit of the count. -/
def leds_show_count (s : State) : Prop :=
  ∀ i, i < 8 → led_line s i = s.count.testBit i

instance (H : Header) (s : State) : Decidable (enable_matches_mode H s) := by
  unfold enable_matches_mode
  infer_instance

instance (s : State) : Decidable (leds_show_count s) := by
  unfold leds_show_count
  infer_instance

/-- A press of the start button as the program sees it: the hardware raises
the flag of pin 6 of PORTD, the handler runs while the line it reads is high,
and `handle_button_presses` runs. -/
def start_press : List Op :=
  [Op.irq (Interrupt.raise 0 PIN6_bm 0), Op.irq (Interrupt.portd_port (fun _ => PIN0_bm)),
   Op.button_presses]

/-- The start button is released (pin 6 of `PORTD.IN` high) while the
increment button is held down (pin 0 of `PORTC.IN` low). -/
def start_released_inputs : Inputs where
  PORTC_IN := fun _ => 0
  PORTD_IN := fun _ => PIN6_bm

/-- A state in which the release of the start button has just raised the
interrupt flag of pin 6 of PORTD. -/
def start_flag_state : State := { power_on with PORTD_INTFLAGS := PIN6_bm }

/-! ## Auxiliary lemmas -/

theorem testBit_255 (i : Nat) : Nat.testBit 255 i = decide (i < 8) := by
  have h : (255 : Nat) = 2 ^ 8 - 1 := by norm_num
  rw [h, Nat.testBit_two_pow_sub_one]

theorem testBit_compl8 (m i : Nat) :
    (compl8 m).testBit i = (decide (i < 8) && !m.testBit i) := by
  have h256 : (256 : Nat) = 2 ^ 8 := by norm_num
  unfold compl8
  rw [Nat.testBit_xor, testBit_255, h256, Nat.testBit_mod_two_pow]
  by_cases h : i < 8 <;> simp [h]

/-- Clearing the bits of `m` leaves none of them set. -/
theorem and_compl8_and (x m : Nat) : (x &&& compl8 m) &&& m = 0 := by
  apply Nat.eq_of_testBit_eq
  intro i
  simp [testBit_compl8]

/-- Setting the bits of `m` leaves all of them set. -/
theorem or_and_self (x m : Nat) : (x ||| m) &&& m = m := by
  apply Nat.eq_of_testBit_eq
  intro i
  rw [Nat.testBit_and, Nat.testBit_or]
  cases x.testBit i <;> cases m.testBit i <;> rfl

/-- The test `x & (1 << k)` of the source is the test of bit `k`. -/
theorem and_two_pow_ne_zero_iff (x k : Nat) : x &&& 2 ^ k ≠ 0 ↔ x.testBit k = true := by
  constructor
  · intro h
    by_contra hb
    apply h
    apply Nat.eq_of_testBit_eq
    intro i
    simp [Nat.testBit_two_pow]
    intro hx hk
    subst hk
    exact hb hx
  · intro h h0
    have := congrArg (fun n => Nat.testBit n k) h0
    simp [Nat.testBit_two_pow, h] at this

/-- The speaker loop changes nothing but `PORTD.OUT`, the local `spkrCount`
and the instrumentation clock and log. -/
theorem spkr_while_frame (limit : Nat) (hl : limit < 65536) (half_us : Nat) (s : State) :
    ∃ o n c l, spkr_while limit hl half_us s =
      { s with PORTD_OUT := o, spkrCount := n, clock_us := c, log := l } := by
  induction s using spkr_while.induct limit hl half_us with
  | case1 s hlt s1 s2 s3 s4 s5 ih =>
    rw [spkr_while, if_pos hlt]
    obtain ⟨o, n, c, l, h⟩ := ih
    exact ⟨o, n, c, l, h⟩
  | case2 s hge =>
    rw [spkr_while, if_neg hge]
    exact ⟨s.PORTD_OUT, s.spkrCount, s.clock_us, s.log, rfl⟩

/-- The `for` loop of `play_sound` changes nothing but `PORTD.OUT`, the local
`spkrCount` and the instrumentation clock and log. -/
theorem play_sound_for_frame (i : Nat) (s : State) :
    ∃ o n c l, play_sound_for i s =
      { s with PORTD_OUT := o, spkrCount := n, clock_us := c, log := l } := by
  induction i, s using play_sound_for.induct with
  | case1 i s hlt s1 s2 s3 ih =>
    rw [play_sound_for, if_pos hlt]
    obtain ⟨o, n, c, l, h⟩ := ih
    obtain ⟨o1, n1, c1, l1, h1⟩ := spkr_while_frame 250 (by decide) 1276 s
    refine ⟨o, n, c, l, ?_⟩
    rw [h]
    simp only [s3, s2, s1, h1, delay_us]
  | case2 i s hge =>
    rw [play_sound_for, if_neg hge]
    exact ⟨s.PORTD_OUT, s.spkrCount, s.clock_us, s.log, rfl⟩

/-- The function `play_sound` is total; it adds one to the call counter and
changes nothing else but `PORTD.OUT`, its local and the instrumentation clock
and log. -/
theorem play_sound_frame (s : State) :
    ∃ o c l, play_sound s =
      { s with play_sound_calls := s.play_sound_calls + 1,
               PORTD_OUT := o, spkrCount := 0, clock_us := c, log := l } := by
  obtain ⟨o1, n1, c1, l1, h1⟩ := play_sound_for_frame 0
    { s with play_sound_calls := s.play_sound_calls + 1, spkrCount := 0 }
  obtain ⟨o2, n2, c2, l2, h2⟩ := spkr_while_frame 1590 (by decide) 1607
    (play_sound_for 0 { s with play_sound_calls := s.play_sound_calls + 1, spkrCount := 0 })
  refine ⟨o2, c2, l2, ?_⟩
  unfold play_sound
  simp only []
  rw [h2, h1]


/-- The conditional `PORTA.OUTSET` writes of `display_count_value`. -/
theorem ite_PORTA_OUTSET (p : Prop) [Decidable p] (m : Nat) (s : State) :
    (if p then PORTA_OUTSET m s else s) =
      { s with PORTA_OUT := s.PORTA_OUT ||| (if p then m else 0) } := by
  by_cases h : p <;> simp [h, PORTA_OUTSET]

/-- The conditional `PORTD.OUTSET` writes of `display_count_value`. -/
theorem ite_PORTD_OUTSET (p : Prop) [Decidable p] (m : Nat) (s : State) :
    (if p then PORTD_OUTSET m s else s) =
      { s with PORTD_OUT := s.PORTD_OUT ||| (if p then m else 0) } := by
  by_cases h : p <;> simp [h, PORTD_OUTSET]

/-- The effect of `display_count_value` in closed form: only the two output
registers change. -/
theorem display_count_value_eq (s : State) :
    display_count_value s =
      { s with
        PORTA_OUT :=
          (s.PORTA_OUT &&&
            compl8 (PIN2_bm ||| PIN3_bm ||| PIN4_bm ||| PIN5_bm ||| PIN6_bm ||| PIN7_bm)) |||
          (if s.count &&& 4 ≠ 0 then PIN7_bm else 0) |||
          (if s.count &&& 8 ≠ 0 then PIN6_bm else 0) |||
          (if s.count &&& 16 ≠ 0 then PIN5_bm else 0) |||
          (if s.count &&& 32 ≠ 0 then PIN4_bm else 0) |||
          (if s.count &&& 64 ≠ 0 then PIN3_bm else 0) |||
          (if s.count &&& 128 ≠ 0 then PIN2_bm else 0),
        PORTD_OUT :=
          (s.PORTD_OUT &&& compl8 (PIN5_bm ||| PIN7_bm)) |||
          (if s.count &&& 1 ≠ 0 then PIN7_bm else 0) |||
          (if s.count &&& 2 ≠ 0 then PIN5_bm else 0) } := by
  simp only [display_count_value, ite_PORTA_OUTSET, ite_PORTD_OUTSET, PORTA_OUTCLR,
    PORTD_OUTCLR]

theorem count_bit_tests (c : Nat) :
    (c &&& 1 ≠ 0 ↔ c.testBit 0 = true) ∧ (c &&& 2 ≠ 0 ↔ c.testBit 1 = true) ∧
    (c &&& 4 ≠ 0 ↔ c.testBit 2 = true) ∧ (c &&& 8 ≠ 0 ↔ c.testBit 3 = true) ∧
    (c &&& 16 ≠ 0 ↔ c.testBit 4 = true) ∧ (c &&& 32 ≠ 0 ↔ c.testBit 5 = true) ∧
    (c &&& 64 ≠ 0 ↔ c.testBit 6 = true) ∧ (c &&& 128 ≠ 0 ↔ c.testBit 7 = true) :=
  ⟨and_two_pow_ne_zero_iff c 0, and_two_pow_ne_zero_iff c 1, and_two_pow_ne_zero_iff c 2,
   and_two_pow_ne_zero_iff c 3, and_two_pow_ne_zero_iff c 4, and_two_pow_ne_zero_iff c 5,
   and_two_pow_ne_zero_iff c 6, and_two_pow_ne_zero_iff c 7⟩

theorem testBit_ite_mask (p : Prop) [Decidable p] (k i : Nat) :
    (if p then 2 ^ k else 0).testBit i = (decide p && decide (k = i)) := by
  by_cases h : p <;> simp [h, Nat.testBit_two_pow]

theorem PIN_bm_eq :
    PIN0_bm = 2 ^ 0 ∧ PIN1_bm = 2 ^ 1 ∧ PIN2_bm = 2 ^ 2 ∧ PIN3_bm = 2 ^ 3 ∧
    PIN4_bm = 2 ^ 4 ∧ PIN5_bm = 2 ^ 5 ∧ PIN6_bm = 2 ^ 6 ∧ PIN7_bm = 2 ^ 7 := by
  decide

/-- Every bit of `PORTA.OUT` after `display_count_value`. -/
theorem display_PORTA_testBit (s : State) (i : Nat) :
    (display_count_value s).PORTA_OUT.testBit i =
      if i = 7 then s.count.testBit 2 else if i = 6 then s.count.testBit 3
      else if i = 5 then s.count.testBit 4 else if i = 4 then s.count.testBit 5
      else if i = 3 then s.count.testBit 6 else if i = 2 then s.count.testBit 7
      else (decide (i < 8) && s.PORTA_OUT.testBit i) := by
  obtain ⟨-, -, h2, h3, h4, h5, h6, h7⟩ := PIN_bm_eq
  obtain ⟨-, -, c2, c3, c4, c5, c6, c7⟩ := count_bit_tests s.count
  rw [display_count_value_eq]
  simp only [h2, h3, h4, h5, h6, h7, Nat.testBit_or, Nat.testBit_and, testBit_compl8,
    testBit_ite_mask, Nat.testBit_two_pow, c2, c3, c4, c5, c6, c7]
  by_cases e7 : i = 7
  · subst e7; simp
  by_cases e6 : i = 6
  · subst e6; simp
  by_cases e5 : i = 5
  · subst e5; simp
  by_cases e4 : i = 4
  · subst e4; simp
  by_cases e3 : i = 3
  · subst e3; simp
  by_cases e2 : i = 2
  · subst e2; simp
  have n7 : ¬ 7 = i := fun h => e7 h.symm
  have n6 : ¬ 6 = i := fun h => e6 h.symm
  have n5 : ¬ 5 = i := fun h => e5 h.symm
  have n4 : ¬ 4 = i := fun h => e4 h.symm
  have n3 : ¬ 3 = i := fun h => e3 h.symm
  have n2 : ¬ 2 = i := fun h => e2 h.symm
  simp [e7, e6, e5, e4, e3, e2, n7, n6, n5, n4, n3, n2]
  exact Bool.and_comm _ _

/-- Every bit of `PORTD.OUT` after `display_count_value`. -/
theorem display_PORTD_testBit (s : State) (i : Nat) :
    (display_count_value s).PORTD_OUT.testBit i =
      if i = 7 then s.count.testBit 0 else if i = 5 then s.count.testBit 1
      else (decide (i < 8) && s.PORTD_OUT.testBit i) := by
  obtain ⟨-, -, -, -, -, h5, -, h7⟩ := PIN_bm_eq
  obtain ⟨c0, c1, -, -, -, -, -, -⟩ := count_bit_tests s.count
  rw [display_count_value_eq]
  simp only [h5, h7, Nat.testBit_or, Nat.testBit_and, testBit_compl8,
    testBit_ite_mask, Nat.testBit_two_pow, c0, c1]
  by_cases e7 : i = 7
  · subst e7; simp
  by_cases e5 : i = 5
  · subst e5; simp
  have n7 : ¬ 7 = i := fun h => e7 h.symm
  have n5 : ¬ 5 = i := fun h => e5 h.symm
  simp [e7, e5, n7, n5]
  exact Bool.and_comm _ _

/-- After `display_count_value` each LED line shows its bit of the count. -/
theorem led_line_display (s : State) (i : Nat) (hi : i < 8) :
    led_line (display_count_value s) i = s.count.testBit i := by
  interval_cases i <;> simp [led_line, display_PORTA_testBit, display_PORTD_testBit]

/-- Tick handling while running with a positive count. -/
theorem handle_count_change_running (H : Header) (s : State)
    (hr : s.is_running ≠ 0) (hc : 0 < s.count) :
    handle_count_change H s =
      { display_count_value { s with count := (s.count + 255) % 256 } with
        count_changed := 0 } := by
  simp [handle_count_change, hr, hc]

/-- Tick handling while running with count zero: the expiry. -/
theorem handle_count_change_expiry (H : Header) (s : State)
    (hr : s.is_running ≠ 0) (hc : s.count = 0) :
    handle_count_change H s =
      { display_count_value (reset H (play_sound { s with is_running := 0 })) with
        count_changed := 0 } := by
  simp [handle_count_change, hr, hc]

/-- Tick handling in setting mode. -/
theorem handle_count_change_setting (H : Header) (s : State) (hr : s.is_running = 0) :
    handle_count_change H s = { display_count_value s with count_changed := 0 } := by
  simp [handle_count_change, hr]

/-- Without a button request `handle_button_presses` does nothing. -/
theorem handle_button_presses_idle (H : Header) (s : State)
    (hs : s.start_button_pressed = 0) (h1 : s.incr_1_pressed = 0)
    (h5 : s.incr_5_pressed = 0) : handle_button_presses H s = s := by
  simp [handle_button_presses, hs, h1, h5]

/-- One tick while running with a positive count: the count goes down by one,
nothing else of the globals changes and the tone is not played. -/
theorem tick_running (H : Header) (s : State) (hr : s.is_running ≠ 0)
    (hc : 0 < s.count) (hb : s.count ≤ 255) (hs : s.start_button_pressed = 0)
    (h1 : s.incr_1_pressed = 0) (h5 : s.incr_5_pressed = 0) :
    (main_loop_iteration H (ISR_TCA0_OVF_vect H s)).count = s.count - 1 ∧
    (main_loop_iteration H (ISR_TCA0_OVF_vect H s)).is_running = s.is_running ∧
    (main_loop_iteration H (ISR_TCA0_OVF_vect H s)).start_button_pressed = 0 ∧
    (main_loop_iteration H (ISR_TCA0_OVF_vect H s)).incr_1_pressed = 0 ∧
    (main_loop_iteration H (ISR_TCA0_OVF_vect H s)).incr_5_pressed = 0 ∧
    (main_loop_iteration H (ISR_TCA0_OVF_vect H s)).play_sound_calls =
      s.play_sound_calls := by
  have e : handle_button_presses H (ISR_TCA0_OVF_vect H s) = ISR_TCA0_OVF_vect H s :=
    handle_button_presses_idle H _ hs h1 h5
  have hcc : (ISR_TCA0_OVF_vect H s).count_changed ≠ 0 := by simp [ISR_TCA0_OVF_vect]
  have hr2 : (ISR_TCA0_OVF_vect H s).is_running ≠ 0 := hr
  have hc2 : 0 < (ISR_TCA0_OVF_vect H s).count := hc
  simp only [main_loop_iteration, e, hcc, if_true, ne_eq, not_false_eq_true]
  rw [handle_count_change_running H _ hr2 hc2]
  simp [display_count_value_eq, ISR_TCA0_OVF_vect, hs, h1, h5]
  omega

/-- One tick while running with count zero: the tone is played once and the
timer is back in setting mode. -/
theorem tick_expiry (H : Header) (s : State) (hr : s.is_running ≠ 0)
    (hc : s.count = 0) (hs : s.start_button_pressed = 0)
    (h1 : s.incr_1_pressed = 0) (h5 : s.incr_5_pressed = 0) :
    (main_loop_iteration H (ISR_TCA0_OVF_vect H s)).count = 0 ∧
    (main_loop_iteration H (ISR_TCA0_OVF_vect H s)).is_running = 0 ∧
    (main_loop_iteration H (ISR_TCA0_OVF_vect H s)).play_sound_calls =
      s.play_sound_calls + 1 := by
  have e : handle_button_presses H (ISR_TCA0_OVF_vect H s) = ISR_TCA0_OVF_vect H s :=
    handle_button_presses_idle H _ hs h1 h5
  have hcc : (ISR_TCA0_OVF_vect H s).count_changed ≠ 0 := by simp [ISR_TCA0_OVF_vect]
  have hr2 : (ISR_TCA0_OVF_vect H s).is_running ≠ 0 := hr
  have hc2 : (ISR_TCA0_OVF_vect H s).count = 0 := hc
  simp only [main_loop_iteration, e, hcc, if_true, ne_eq, not_false_eq_true]
  rw [handle_count_change_expiry H _ hr2 hc2]
  obtain ⟨o, c, l, h⟩ := play_sound_frame { ISR_TCA0_OVF_vect H s with is_running := 0 }
  rw [h]
  simp [display_count_value_eq, reset, ISR_TCA0_OVF_vect]

/-- The LED lines are read from `PORTA.OUT` and `PORTD.OUT` only. -/
theorem led_line_congr (s t : State) (ha : s.PORTA_OUT = t.PORTA_OUT)
    (hd : s.PORTD_OUT = t.PORTD_OUT) (i : Nat) : led_line s i = led_line t i := by
  unfold led_line
  rw [ha, hd]

/-- There are eight LED lines. -/
theorem led_line_of_ge (s : State) (i : Nat) (hi : 8 ≤ i) : led_line s i = false := by
  unfold led_line
  split <;> first | omega | rfl

/-- The result of `button_debounce` is decided by the value the caller read. -/
theorem button_debounce_fst (port pin_bm : Nat) (s : State) :
    (button_debounce port pin_bm s).1 = if port &&& pin_bm ≠ 0 then 1 else 0 := by
  unfold button_debounce
  split <;> simp_all

/-! ## Countdown and expiry (C1, C2) -/

/-- Claim C1 (countdown length).  From a running state with `count = n ≤ 255`
and no button request, `n` main-loop iterations that each begin with a timer
tick never play the tone (the call counter is unchanged after every one of
them) and end with `count = 0` and `is_running` still set; one more such
iteration plays the tone exactly once and ends with `is_running = 0` and
`count = 0`. -/
theorem C1_countdown_length (H : Header) (n : Nat) (hn : n ≤ 255) (s : State)
    (hr : s.is_running ≠ 0) (hc : s.count = n) (hs : s.start_button_pressed = 0)
    (h1 : s.incr_1_pressed = 0) (h5 : s.incr_5_pressed = 0) :
    (∀ k, k ≤ n → (run_ticks H k s).play_sound_calls = s.play_sound_calls) ∧
    (run_ticks H n s).count = 0 ∧
    (run_ticks H n s).is_running ≠ 0 ∧
    (run_ticks H (n + 1) s).play_sound_calls = s.play_sound_calls + 1 ∧
    (run_ticks H (n + 1) s).is_running = 0 ∧
    (run_ticks H (n + 1) s).count = 0 := by
  induction n generalizing s with
  | zero =>
    obtain ⟨a, b, c⟩ := tick_expiry H s hr hc hs h1 h5
    refine ⟨?_, hc, hr, c, b, a⟩
    intro k hk
    have : k = 0 := by omega
    subst this
    rfl
  | succ n ih =>
    obtain ⟨a, b, c, d, e, f⟩ := tick_running H s hr (by omega) (by omega) hs h1 h5
    have ih2 := ih (by omega) (main_loop_iteration H (ISR_TCA0_OVF_vect H s))
      (by rw [b]; exact hr) (by rw [a]; omega) c d e
    rw [f] at ih2
    obtain ⟨i1, i2, i3, i4, i5, i6⟩ := ih2
    refine ⟨?_, i2, i3, i4, i5, i6⟩
    intro k hk
    cases k with
    | zero => rfl
    | succ k => exact i1 k (by omega)

/-- Claim C1 at a timer started with two seconds left. -/
theorem C1_countdown_length_witness :
    (running_state 2).is_running ≠ 0 ∧ (running_state 2).count = 2 ∧
    (run_ticks avr_header 2 (running_state 2)).count = 0 ∧
    (run_ticks avr_header 2 (running_state 2)).is_running ≠ 0 ∧
    (run_ticks avr_header 2 (running_state 2)).play_sound_calls =
      (running_state 2).play_sound_calls ∧
    (run_ticks avr_header 3 (running_state 2)).play_sound_calls =
      (running_state 2).play_sound_calls + 1 ∧
    (run_ticks avr_header 3 (running_state 2)).is_running = 0 ∧
    (run_ticks avr_header 3 (running_state 2)).count = 0 :=
  have h := C1_countdown_length avr_header 2 (by decide) (running_state 2) (by decide)
    rfl rfl rfl rfl
  ⟨by decide, rfl, h.2.1, h.2.2.1, h.1 2 (le_refl 2), h.2.2.2.1, h.2.2.2.2.1,
    h.2.2.2.2.2⟩

/-- Claim C2 (expiry condition).  For every state `handle_count_change` calls
`play_sound` exactly once when on entry `is_running` is set and `count = 0`,
and not at all otherwise; in the first case it returns with `is_running = 0`,
`count = 0`, `count_changed = 0` and the enable bit of the tick timer
cleared. -/
theorem C2_expiry_condition (H : Header) (s : State) :
    (handle_count_change H s).play_sound_calls =
      s.play_sound_calls + (if s.is_running ≠ 0 ∧ s.count = 0 then 1 else 0) ∧
    (s.is_running ≠ 0 ∧ s.count = 0 →
      (handle_count_change H s).is_running = 0 ∧
      (handle_count_change H s).count = 0 ∧
      (handle_count_change H s).count_changed = 0 ∧
      (handle_count_change H s).TCA0_CTRLA &&& H.TCA_SINGLE_ENABLE_bm = 0) := by
  by_cases hr : s.is_running = 0
  · rw [handle_count_change_setting H s hr]
    simp [display_count_value_eq, hr]
  · by_cases hc : s.count = 0
    · rw [handle_count_change_expiry H s hr hc]
      obtain ⟨o, c, l, h⟩ := play_sound_frame { s with is_running := 0 }
      rw [h]
      simp [display_count_value_eq, reset, hr, hc, and_compl8_and]
    · rw [handle_count_change_running H s hr (Nat.pos_of_ne_zero hc)]
      simp [display_count_value_eq, hr, hc]

/-- Claim C2 at the expiry of a running timer and at a tick in setting mode. -/
theorem C2_expiry_condition_witness :
    (handle_count_change avr_header (running_state 0)).play_sound_calls =
      (running_state 0).play_sound_calls + 1 ∧
    (handle_count_change avr_header (running_state 0)).is_running = 0 ∧
    (handle_count_change avr_header (setting_state 0)).play_sound_calls =
      (setting_state 0).play_sound_calls + 0 :=
  ⟨(C2_expiry_condition avr_header (running_state 0)).1,
   ((C2_expiry_condition avr_header (running_state 0)).2 ⟨by decide, rfl⟩).1,
   (C2_expiry_condition avr_header (setting_state 0)).1⟩

/-! ## Request handling (C3 to C7) -/

/-- Claim C3 fails as stated: in running mode, with the start flag clear and
the increment-1 flag set, `handle_button_presses` changes the count from 3
to 4. -/
theorem C3_counterexample :
    running_request_state.is_running ≠ 0 ∧
    running_request_state.start_button_pressed = 0 ∧
    running_request_state.incr_1_pressed ≠ 0 ∧
    running_request_state.count = 3 ∧
    (handle_button_presses avr_header running_request_state).count = 4 ∧
    (handle_button_presses avr_header running_request_state).count ≠
      running_request_state.count := by
  decide

/-- Claim C3 as amended.  In running mode with the start flag clear and an
increment request pending, `handle_button_presses` clears both increment
flags and does not consult the mode: the count gets `+1` when the increment-1
flag is set and `count < 255`, then `+5` when the increment-5 flag is set and
the updated count is at most 250, exactly as it does in setting mode. -/
theorem C3_requests_not_gated (H : Header) (s : State) (_hr : s.is_running ≠ 0)
    (hs : s.start_button_pressed = 0)
    (hreq : s.incr_1_pressed ≠ 0 ∨ s.incr_5_pressed ≠ 0) :
    (handle_button_presses H s).incr_1_pressed = 0 ∧
    (handle_button_presses H s).incr_5_pressed = 0 ∧
    (handle_button_presses H s).count =
      (if s.incr_5_pressed ≠ 0 ∧
          (if s.incr_1_pressed ≠ 0 ∧ s.count < 255 then s.count + 1 else s.count) ≤ 250
        then (if s.incr_1_pressed ≠ 0 ∧ s.count < 255 then s.count + 1 else s.count) + 5
        else (if s.incr_1_pressed ≠ 0 ∧ s.count < 255 then s.count + 1 else s.count)) ∧
    (handle_button_presses H s).count =
      (handle_button_presses H { s with is_running := 0 }).count ∧
    (handle_button_presses H s).is_running = s.is_running := by
  have m1 : s.count < 255 → (s.count + 1) % 256 = s.count + 1 := fun h => by omega
  have m5 : s.count ≤ 250 → (s.count + 5) % 256 = s.count + 5 := fun h => by omega
  have m6 : s.count + 1 ≤ 250 → (s.count + 1 + 5) % 256 = s.count + 1 + 5 := fun h => by omega
  by_cases h1 : s.incr_1_pressed = 0 <;> by_cases h5 : s.incr_5_pressed = 0 <;>
    by_cases c1 : s.count < 255 <;> by_cases c5 : s.count ≤ 250 <;>
    by_cases c6 : s.count + 1 ≤ 250 <;>
    first
    | omega
    | simp [handle_button_presses, hs, h1, h5, c1, c5, c6, m1, m5, m6]

/-- Claim C3 as amended, at a running timer showing 3 with an increment-1
request. -/
theorem C3_requests_not_gated_witness :
    running_request_state.is_running ≠ 0 ∧
    running_request_state.start_button_pressed = 0 ∧
    (running_request_state.incr_1_pressed ≠ 0 ∨ running_request_state.incr_5_pressed ≠ 0) ∧
    (handle_button_presses avr_header running_request_state).incr_1_pressed = 0 ∧
    (handle_button_presses avr_header running_request_state).count =
      (handle_button_presses avr_header
        { running_request_state with is_running := 0 }).count :=
  ⟨by decide, by decide, by decide,
   (C3_requests_not_gated avr_header running_request_state (by decide) (by decide)
      (by decide)).1,
   (C3_requests_not_gated avr_header running_request_state (by decide) (by decide)
      (by decide)).2.2.2.1⟩

/-- Claim C4 (increment by 1).  In setting mode with only the increment-1 flag
set, `handle_button_presses` yields `min (count + 1) 255`, clears the flag,
sets `count_changed` when `count < 255` and leaves it as it was otherwise; at
`count = 255` nothing changes but the cleared flag. -/
theorem C4_incr_1 (H : Header) (s : State) (hc : s.count ≤ 255)
    (_hmode : s.is_running = 0) (h1 : s.incr_1_pressed ≠ 0)
    (hs : s.start_button_pressed = 0) (h5 : s.incr_5_pressed = 0) :
    (handle_button_presses H s).count = min (s.count + 1) 255 ∧
    (handle_button_presses H s).incr_1_pressed = 0 ∧
    (s.count < 255 → (handle_button_presses H s).count_changed = 1) ∧
    (¬ s.count < 255 → (handle_button_presses H s).count_changed = s.count_changed) ∧
    (s.count = 255 → handle_button_presses H s = { s with incr_1_pressed := 0 }) := by
  by_cases h : s.count < 255
  · simp [handle_button_presses, hs, h1, h5, h]
    omega
  · have h255 : s.count = 255 := by omega
    simp [handle_button_presses, hs, h1, h5, h, h255]

/-- Claim C4 at the saturated count 255 in setting mode. -/
theorem C4_incr_1_witness :
    (handle_button_presses avr_header { setting_state 255 with incr_1_pressed := 1 }).count =
      min (({ setting_state 255 with incr_1_pressed := 1 } : State).count + 1) 255 ∧
    (handle_button_presses avr_header
      { setting_state 255 with incr_1_pressed := 1 }).incr_1_pressed = 0 ∧
    handle_button_presses avr_header { setting_state 255 with incr_1_pressed := 1 } =
      { ({ setting_state 255 with incr_1_pressed := 1 } : State) with incr_1_pressed := 0 } :=
  have h := C4_incr_1 avr_header { setting_state 255 with incr_1_pressed := 1 }
    (by decide) rfl (by decide) rfl rfl
  ⟨h.1, h.2.1, h.2.2.2.2 rfl⟩

/-- Claim C5 (increment by 5 drops rather than clamps).  In setting mode with
only the increment-5 flag set, `handle_button_presses` yields `count + 5` when
`count ≤ 250`; from 251 on the count and `count_changed` are untouched (so the
count does not become 255), and the flag is cleared in both cases. -/
theorem C5_incr_5 (H : Header) (s : State)
    (_hmode : s.is_running = 0) (h5 : s.incr_5_pressed ≠ 0)
    (hs : s.start_button_pressed = 0) (h1 : s.incr_1_pressed = 0) :
    (s.count ≤ 250 →
      (handle_button_presses H s).count = s.count + 5 ∧
      (handle_button_presses H s).count_changed = 1) ∧
    (251 ≤ s.count →
      (handle_button_presses H s).count = s.count ∧
      (handle_button_presses H s).count_changed = s.count_changed ∧
      handle_button_presses H s = { s with incr_5_pressed := 0 }) ∧
    (251 ≤ s.count → s.count < 255 → (handle_button_presses H s).count ≠ 255) ∧
    (handle_button_presses H s).incr_5_pressed = 0 := by
  by_cases h : s.count ≤ 250
  · simp [handle_button_presses, hs, h1, h5, h]
    omega
  · simp [handle_button_presses, hs, h1, h5, h]
    omega

/-- Claim C5 at the count 251 in setting mode. -/
theorem C5_incr_5_witness :
    (handle_button_presses avr_header { setting_state 251 with incr_5_pressed := 1 }).count =
      ({ setting_state 251 with incr_5_pressed := 1 } : State).count ∧
    (handle_button_presses avr_header
      { setting_state 251 with incr_5_pressed := 1 }).count ≠ 255 ∧
    (handle_button_presses avr_header
      { setting_state 251 with incr_5_pressed := 1 }).incr_5_pressed = 0 :=
  have h := C5_incr_5 avr_header { setting_state 251 with incr_5_pressed := 1 }
    rfl (by decide) rfl rfl
  ⟨(h.2.1 (by decide)).1, h.2.2.1 (by decide) (by decide), h.2.2.2⟩

/-- Claim C6 (reset on stop).  In running mode with the start flag set and no
increment request, for every count, `handle_button_presses` ends in setting
mode with `count = 0`, the start flag cleared, `count_changed` set and the
enable bit of the tick timer cleared. -/
theorem C6_reset_on_stop (H : Header) (s : State) (hr : s.is_running ≠ 0)
    (hs : s.start_button_pressed ≠ 0) (h1 : s.incr_1_pressed = 0)
    (h5 : s.incr_5_pressed = 0) :
    (handle_button_presses H s).is_running = 0 ∧
    (handle_button_presses H s).count = 0 ∧
    (handle_button_presses H s).start_button_pressed = 0 ∧
    (handle_button_presses H s).count_changed = 1 ∧
    (handle_button_presses H s).TCA0_CTRLA &&& H.TCA_SINGLE_ENABLE_bm = 0 := by
  simp [handle_button_presses, reset, hr, hs, h1, h5, and_compl8_and]

/-- Claim C6 at a running timer with 37 seconds left. -/
theorem C6_reset_on_stop_witness :
    ({ running_state 37 with start_button_pressed := 1 } : State).is_running ≠ 0 ∧
    (handle_button_presses avr_header
      { running_state 37 with start_button_pressed := 1 }).is_running = 0 ∧
    (handle_button_presses avr_header
      { running_state 37 with start_button_pressed := 1 }).count = 0 :=
  have h := C6_reset_on_stop avr_header { running_state 37 with start_button_pressed := 1 }
    (by decide) (by decide) rfl rfl
  ⟨by decide, h.1, h.2.1⟩

/-- Claim C7 (start preserves the set duration).  In setting mode with the
start flag set and no increment request, `handle_button_presses` sets
`is_running` to 1, clears the start flag, sets the enable bit of the tick
timer and leaves `count` and `count_changed` unchanged. -/
theorem C7_start (H : Header) (s : State) (hmode : s.is_running = 0)
    (hs : s.start_button_pressed ≠ 0) (h1 : s.incr_1_pressed = 0)
    (h5 : s.incr_5_pressed = 0) :
    (handle_button_presses H s).is_running = 1 ∧
    (handle_button_presses H s).start_button_pressed = 0 ∧
    (handle_button_presses H s).TCA0_CTRLA &&& H.TCA_SINGLE_ENABLE_bm =
      H.TCA_SINGLE_ENABLE_bm ∧
    (handle_button_presses H s).count = s.count ∧
    (handle_button_presses H s).count_changed = s.count_changed := by
  simp [handle_button_presses, start_timer, hmode, hs, h1, h5, or_and_self]

/-- Claim C7 at a timer set to 37 seconds. -/
theorem C7_start_witness :
    (handle_button_presses avr_header
      { setting_state 37 with start_button_pressed := 1 }).is_running = 1 ∧
    (handle_button_presses avr_header
      { setting_state 37 with start_button_pressed := 1 }).TCA0_CTRLA &&&
        avr_header.TCA_SINGLE_ENABLE_bm = avr_header.TCA_SINGLE_ENABLE_bm ∧
    (handle_button_presses avr_header
      { setting_state 37 with start_button_pressed := 1 }).count =
      ({ setting_state 37 with start_button_pressed := 1 } : State).count :=
  have h := C7_start avr_header { setting_state 37 with start_button_pressed := 1 }
    rfl (by decide) rfl rfl
  ⟨h.1, h.2.2.1, h.2.2.2.1⟩

/-! ## Stop and tick together, rendering, debounce (C8 to C10) -/

/-- Claim C8 (stop and tick on the same iteration).  In running mode with the
start flag and `count_changed` set and no increment request, for every count,
one main-loop iteration ends with `is_running = 0`, `count = 0`, both flags
cleared, all eight LED lines low (the rendering of count 0) and the tone not
played. -/
theorem C8_stop_and_tick (H : Header) (s : State) (hr : s.is_running ≠ 0)
    (hs : s.start_button_pressed ≠ 0) (_hcc : s.count_changed ≠ 0)
    (h1 : s.incr_1_pressed = 0) (h5 : s.incr_5_pressed = 0) :
    (main_loop_iteration H s).is_running = 0 ∧
    (main_loop_iteration H s).count = 0 ∧
    (main_loop_iteration H s).start_button_pressed = 0 ∧
    (main_loop_iteration H s).count_changed = 0 ∧
    (∀ i, led_line (main_loop_iteration H s) i = false) ∧
    (main_loop_iteration H s).play_sound_calls = s.play_sound_calls := by
  have e : handle_button_presses H s =
      { reset H s with start_button_pressed := 0, is_running := 0 } := by
    simp [handle_button_presses, reset, hr, hs, h1, h5]
  have hcc : (handle_button_presses H s).count_changed ≠ 0 := by
    rw [e]; simp [reset]
  have hm : main_loop_iteration H s = handle_count_change H (handle_button_presses H s) := by
    simp only [main_loop_iteration, hcc, if_true, ne_eq, not_false_eq_true]
  rw [hm, handle_count_change_setting H _ (by rw [e]), e]
  refine ⟨by simp [display_count_value_eq], by simp [display_count_value_eq, reset],
    by simp [display_count_value_eq], by simp, ?_, by simp [display_count_value_eq, reset]⟩
  intro i
  by_cases hi : i < 8
  · refine (led_line_congr _ (display_count_value _) rfl rfl i).trans ?_
    rw [led_line_display _ i hi]
    simp [reset]
  · exact led_line_of_ge _ i (by omega)

/-- Claim C8 at a running timer that reached zero, with stop and tick pending. -/
theorem C8_stop_and_tick_witness :
    ({ running_state 0 with start_button_pressed := 1, count_changed := 1 } :
      State).is_running ≠ 0 ∧
    (main_loop_iteration avr_header
      { running_state 0 with start_button_pressed := 1, count_changed := 1 }).is_running = 0 ∧
    (main_loop_iteration avr_header
      { running_state 0 with start_button_pressed := 1, count_changed := 1 }).count = 0 ∧
    (main_loop_iteration avr_header
      { running_state 0 with start_button_pressed := 1,
                             count_changed := 1 }).play_sound_calls =
      ({ running_state 0 with start_button_pressed := 1, count_changed := 1 } :
        State).play_sound_calls :=
  have h := C8_stop_and_tick avr_header
    { running_state 0 with start_button_pressed := 1, count_changed := 1 }
    (by decide) (by decide) (by decide) rfl rfl
  ⟨by decide, h.1, h.2.1, h.2.2.2.2.2⟩

/-- Claim C9 (render mapping).  After `display_count_value`, for every count
and every prior content of the output registers, LED line `i` is high exactly
when bit `i` of the count is set, under the table bit 0 on PD7, bit 1 on PD5,
bit 2 on PA7, bit 3 on PA6, bit 4 on PA5, bit 5 on PA4, bit 6 on PA3, bit 7
on PA2; the pattern depends on the count only; PA0, PA1 and the bits of
`PORTD.OUT` other than 5 and 7 keep their value, and nothing but the two
output registers changes. -/
theorem C9_render_mapping (s : State) :
    (∀ i, i < 8 → led_line (display_count_value s) i = s.count.testBit i) ∧
    (∀ t : State, t.count = s.count →
      ∀ i, led_line (display_count_value t) i = led_line (display_count_value s) i) ∧
    (∀ b, b < 2 →
      (display_count_value s).PORTA_OUT.testBit b = s.PORTA_OUT.testBit b) ∧
    (∀ b, b < 8 → b ≠ 5 → b ≠ 7 →
      (display_count_value s).PORTD_OUT.testBit b = s.PORTD_OUT.testBit b) ∧
    display_count_value s =
      { s with PORTA_OUT := (display_count_value s).PORTA_OUT,
               PORTD_OUT := (display_count_value s).PORTD_OUT } := by
  refine ⟨fun i hi => led_line_display s i hi, ?_, ?_, ?_, ?_⟩
  · intro t ht i
    by_cases hi : i < 8
    · rw [led_line_display t i hi, led_line_display s i hi, ht]
    · rw [led_line_of_ge _ i (by omega), led_line_of_ge _ i (by omega)]
  · intro b hb
    rw [display_PORTA_testBit]
    have h8 : b < 8 := by omega
    simp [h8, show b ≠ 7 by omega, show b ≠ 6 by omega, show b ≠ 5 by omega,
      show b ≠ 4 by omega, show b ≠ 3 by omega, show b ≠ 2 by omega]
  · intro b hb h5 h7
    rw [display_PORTD_testBit]
    simp [hb, h5, h7]
  · conv_lhs => rw [display_count_value_eq]
    simp [display_count_value_eq]

/-- Claim C10 fails on the code.  The increment button is released when the
handler reads `PORTC.IN` and pressed again when the 20 ms have elapsed, yet
`button_debounce` returns 1 and the handler sets `incr_1_pressed`: the second
test looks at the value read before the delay. -/
theorem C10_bounce_accepted :
    bounce_line released_state.clock_us &&& PIN0_bm ≠ 0 ∧
    bounce_line (released_state.clock_us + 20000) &&& PIN0_bm = 0 ∧
    (button_debounce (bounce_line released_state.clock_us) PIN0_bm released_state).1 = 1 ∧
    (button_debounce (bounce_line released_state.clock_us) PIN0_bm
      released_state).2.clock_us = released_state.clock_us + 20000 ∧
    released_state.incr_1_pressed = 0 ∧
    (ISR_PORTC_PORT_vect bounce_line released_state).incr_1_pressed = 1 := by
  decide


/-! ## Auxiliary lemmas for the interrupts, the runs and the tone -/

/-- The interrupt handlers change nothing of what the main loop owns but the
four flags, and of the registers only their own interrupt flags. -/
theorem ISR_PORTC_PORT_vect_frame (PORTC_IN : Nat → Nat) (s : State) :
    ∃ f1 f5 fl c l, ISR_PORTC_PORT_vect PORTC_IN s =
      { s with incr_1_pressed := f1, incr_5_pressed := f5, PORTC_INTFLAGS := fl,
               clock_us := c, log := l } ∧
      (s.incr_1_pressed ≠ 0 → f1 ≠ 0) ∧ (s.incr_5_pressed ≠ 0 → f5 ≠ 0) := by
  unfold ISR_PORTC_PORT_vect button_debounce
  by_cases h0 : s.PORTC_INTFLAGS &&& PIN0_bm = 0
  · by_cases h1 : s.PORTC_INTFLAGS &&& PIN1_bm = 0
    · exact ⟨s.incr_1_pressed, s.incr_5_pressed, s.PORTC_INTFLAGS, s.clock_us, s.log,
        by simp [h0, h1], id, id⟩
    · by_cases hp : PORTC_IN s.clock_us &&& PIN1_bm = 0
      · exact ⟨s.incr_1_pressed, s.incr_5_pressed, _, s.clock_us, s.log,
          by simp [h0, h1, hp]; rfl, id, id⟩
      · exact ⟨s.incr_1_pressed, 1, _, _, _,
          by simp [h0, h1, hp, delay_us]; exact ⟨rfl, rfl, rfl⟩, id, fun _ => by decide⟩
  · by_cases hp : PORTC_IN s.clock_us &&& PIN0_bm = 0
    · exact ⟨s.incr_1_pressed, s.incr_5_pressed, _, s.clock_us, s.log,
        by simp [h0, hp]; rfl, id, id⟩
    · exact ⟨1, s.incr_5_pressed, _, _, _,
        by simp [h0, hp, delay_us]; exact ⟨rfl, rfl, rfl⟩, fun _ => by decide, id⟩

/-- The start/cancel handler changes nothing of what the main loop owns but
`start_button_pressed`, which it sets exactly when the value read from
`PORTC.IN` has bit 0 high. -/
theorem ISR_PORTD_PORT_vect_frame (PORTC_IN : Nat → Nat) (s : State) :
    ∃ fl c l, ISR_PORTD_PORT_vect PORTC_IN s =
      { s with
        start_button_pressed :=
          if s.PORTD_INTFLAGS &&& PIN6_bm ≠ 0 ∧ PORTC_IN s.clock_us &&& PIN0_bm ≠ 0
          then 1 else s.start_button_pressed,
        PORTD_INTFLAGS := fl, clock_us := c, log := l } := by
  unfold ISR_PORTD_PORT_vect button_debounce
  by_cases h6 : s.PORTD_INTFLAGS &&& PIN6_bm = 0
  · exact ⟨s.PORTD_INTFLAGS, s.clock_us, s.log, by simp [h6]⟩
  · by_cases hp : PORTC_IN s.clock_us &&& PIN0_bm = 0
    · exact ⟨_, s.clock_us, s.log, by simp [h6, hp]; rfl⟩
    · exact ⟨_, _, _, by simp [h6, hp, delay_us]; exact ⟨rfl, rfl, rfl⟩⟩

/-- An interrupt changes the four flags, the interrupt-flag registers and the
instrumentation clock and log, and nothing else. -/
theorem interrupt_frame (H : Header) (i : Interrupt) (s : State) :
    ∃ st cc f1 f5 a b c clk l, interrupt H i s =
      { s with start_button_pressed := st, count_changed := cc, incr_1_pressed := f1,
               incr_5_pressed := f5, PORTC_INTFLAGS := a, PORTD_INTFLAGS := b,
               TCA0_INTFLAGS := c, clock_us := clk, log := l } := by
  cases i with
  | raise portc portd tca =>
    exact ⟨s.start_button_pressed, s.count_changed, s.incr_1_pressed, s.incr_5_pressed,
      portc, portd, tca, s.clock_us, s.log, rfl⟩
  | tca0_ovf =>
    exact ⟨s.start_button_pressed, 1, s.incr_1_pressed, s.incr_5_pressed,
      s.PORTC_INTFLAGS, s.PORTD_INTFLAGS, _, s.clock_us, s.log, rfl⟩
  | portc_port f =>
    obtain ⟨f1, f5, fl, c, l, h, -, -⟩ := ISR_PORTC_PORT_vect_frame f s
    exact ⟨s.start_button_pressed, s.count_changed, f1, f5, fl, s.PORTD_INTFLAGS,
      s.TCA0_INTFLAGS, c, l, h⟩
  | portd_port f =>
    obtain ⟨fl, c, l, h⟩ := ISR_PORTD_PORT_vect_frame f s
    exact ⟨_, s.count_changed, s.incr_1_pressed, s.incr_5_pressed, s.PORTC_INTFLAGS, fl,
      s.TCA0_INTFLAGS, c, l, h⟩

/-- Writing a code that lies within a field after clearing the field leaves
exactly that code in the field. -/
theorem field_after_clear (p g r : Nat) (hr : r &&& g = r) :
    ((p &&& compl8 g) ||| r) &&& g = r := by
  apply Nat.eq_of_testBit_eq
  intro i
  have h := congrArg (fun n => Nat.testBit n i) hr
  simp only [Nat.testBit_and] at h
  simp only [Nat.testBit_and, Nat.testBit_or, testBit_compl8]
  cases hp : p.testBit i <;> cases hg : g.testBit i <;> cases hr2 : r.testBit i <;>
    simp_all

/-- Clearing a field and writing a code that lies within it keeps the bits
outside the field. -/
theorem outside_after_clear (p g r : Nat) (hr : r &&& g = r) (i : Nat) (hi : i < 8)
    (hg : g.testBit i = false) :
    ((p &&& compl8 g) ||| r).testBit i = p.testBit i := by
  have h := congrArg (fun n => Nat.testBit n i) hr
  simp only [Nat.testBit_and] at h
  simp only [Nat.testBit_and, Nat.testBit_or, testBit_compl8]
  cases hp : p.testBit i <;> cases hr2 : r.testBit i <;> simp_all

/-- Setting bits within a field, then clearing the field and writing the code
it held before, gives back an 8-bit register. -/
theorem restore_after_set (p g r d : Nat) (hp : p < 256) (hf : p &&& g = r)
    (hd : d &&& g = d) : (((p ||| d) &&& compl8 g) ||| r) = p := by
  apply Nat.eq_of_testBit_eq
  intro i
  have h1 := congrArg (fun n => Nat.testBit n i) hf
  have h2 := congrArg (fun n => Nat.testBit n i) hd
  simp only [Nat.testBit_and] at h1 h2
  simp only [Nat.testBit_and, Nat.testBit_or, testBit_compl8]
  by_cases hi : i < 8
  · cases hpi : p.testBit i <;> cases hg : g.testBit i <;> cases hr2 : r.testBit i <;>
      cases hd2 : d.testBit i <;> simp_all
  · have hpi : p.testBit i = false :=
      Nat.testBit_lt_two_pow (lt_of_lt_of_le hp (by
        have : (256 : Nat) = 2 ^ 8 := by norm_num
        rw [this]
        exact Nat.pow_le_pow_right (by norm_num) (by omega)))
    cases hg : g.testBit i <;> cases hr2 : r.testBit i <;> cases hd2 : d.testBit i <;>
      simp_all

/-- Only the two output registers change in `display_count_value`. -/
theorem display_count_value_frame (s : State) :
    display_count_value s =
      { s with PORTA_OUT := (display_count_value s).PORTA_OUT,
               PORTD_OUT := (display_count_value s).PORTD_OUT } := by
  conv_lhs => rw [display_count_value_eq]
  simp [display_count_value_eq]

/-- Rendering twice is rendering once. -/
theorem display_count_value_idem (s : State) :
    display_count_value (display_count_value s) = display_count_value s := by
  have hc : (display_count_value s).count = s.count := by
    rw [display_count_value_eq]
  have ha : (display_count_value (display_count_value s)).PORTA_OUT =
      (display_count_value s).PORTA_OUT := by
    apply Nat.eq_of_testBit_eq
    intro i
    rw [display_PORTA_testBit (display_count_value s), hc, display_PORTA_testBit s]
    split_ifs <;> simp
  have hd : (display_count_value (display_count_value s)).PORTD_OUT =
      (display_count_value s).PORTD_OUT := by
    apply Nat.eq_of_testBit_eq
    intro i
    rw [display_PORTD_testBit (display_count_value s), hc, display_PORTD_testBit s]
    split_ifs <;> simp
  rw [display_count_value_frame (display_count_value s), ha, hd]

/-- Rendering does not look at `count_changed`. -/
theorem display_count_value_count_changed (s : State) (v : Nat) :
    display_count_value { s with count_changed := v } =
      { display_count_value s with count_changed := v } := by
  rw [display_count_value_eq, display_count_value_eq]

/-- In setting mode a second tick handling changes nothing. -/
theorem handle_count_change_setting_idem (H : Header) (s : State) (hr : s.is_running = 0) :
    handle_count_change H (handle_count_change H s) = handle_count_change H s := by
  have h1 := handle_count_change_setting H s hr
  have hr2 : (handle_count_change H s).is_running = 0 := by
    rw [h1, display_count_value_eq]; exact hr
  rw [handle_count_change_setting H _ hr2, h1, display_count_value_count_changed,
    display_count_value_idem]

/-- What `handle_button_presses` does to the mode, the timer control
register, the output registers and the count. -/
theorem handle_button_presses_facts (H : Header) (s : State) :
    (handle_button_presses H s).is_running =
      (if s.start_button_pressed ≠ 0 then (if s.is_running = 0 then 1 else 0)
       else s.is_running) ∧
    (handle_button_presses H s).TCA0_CTRLA =
      (if s.start_button_pressed ≠ 0 then
        (if s.is_running = 0 then s.TCA0_CTRLA ||| H.TCA_SINGLE_ENABLE_bm
         else s.TCA0_CTRLA &&& compl8 H.TCA_SINGLE_ENABLE_bm)
       else s.TCA0_CTRLA) ∧
    (handle_button_presses H s).PORTA_OUT = s.PORTA_OUT ∧
    (handle_button_presses H s).PORTD_OUT = s.PORTD_OUT ∧
    ((handle_button_presses H s).count_changed = 0 →
      (handle_button_presses H s).count = s.count) ∧
    (s.count ≤ 255 → (handle_button_presses H s).count ≤ 255) := by
  have m1 : s.count < 255 → (s.count + 1) % 256 = s.count + 1 := fun h => by omega
  by_cases hs : s.start_button_pressed = 0 <;> by_cases hr : s.is_running = 0 <;>
    by_cases h1 : s.incr_1_pressed = 0 <;> by_cases h5 : s.incr_5_pressed = 0 <;>
    by_cases c1 : s.count < 255 <;> by_cases c5 : s.count ≤ 250 <;>
    by_cases c6 : s.count + 1 ≤ 250 <;>
    first
    | omega
    | (simp [handle_button_presses, reset, start_timer, hs, hr, h1, h5, c1, c5, c6, m1]
       try omega)

/-- The mode and the timer control register after `handle_count_change`. -/
theorem handle_count_change_mode (H : Header) (s : State) :
    (handle_count_change H s).is_running =
      (if s.is_running ≠ 0 ∧ s.count = 0 then 0 else s.is_running) ∧
    (handle_count_change H s).TCA0_CTRLA =
      (if s.is_running ≠ 0 ∧ s.count = 0 then
        s.TCA0_CTRLA &&& compl8 H.TCA_SINGLE_ENABLE_bm
       else s.TCA0_CTRLA) := by
  by_cases hr : s.is_running = 0
  · rw [handle_count_change_setting H s hr]
    simp [display_count_value_eq, hr]
  · by_cases hc : s.count = 0
    · rw [handle_count_change_expiry H s hr hc]
      obtain ⟨o, c, l, h⟩ := play_sound_frame { s with is_running := 0 }
      rw [h]
      simp [display_count_value_eq, reset, hr, hc]
    · rw [handle_count_change_running H s hr (Nat.pos_of_ne_zero hc)]
      simp [display_count_value_eq, hr, hc]

/-- Every step keeps the timer enabled exactly in running mode. -/
theorem op_enable_matches_mode (H : Header) (o : Op) (s : State)
    (h : enable_matches_mode H s) : enable_matches_mode H (op H o s) := by
  obtain ⟨h0, h1⟩ := h
  cases o with
  | irq i =>
    obtain ⟨st, cc, f1, f5, a, b, c, clk, l, e⟩ := interrupt_frame H i s
    show enable_matches_mode H (interrupt H i s)
    rw [e]
    exact ⟨h0, h1⟩
  | button_presses =>
    obtain ⟨e1, e2, -, -, -, -⟩ := handle_button_presses_facts H s
    show enable_matches_mode H (handle_button_presses H s)
    unfold enable_matches_mode
    rw [e1, e2]
    by_cases hs : s.start_button_pressed = 0 <;> by_cases hr : s.is_running = 0 <;>
      simp [hs, hr, h0, h1, and_compl8_and, or_and_self]
  | count_change =>
    obtain ⟨e1, e2⟩ := handle_count_change_mode H s
    show enable_matches_mode H (handle_count_change H s)
    unfold enable_matches_mode
    rw [e1, e2]
    by_cases hr : s.is_running = 0 <;> by_cases hc : s.count = 0 <;>
      simp [hr, hc, h0, h1, and_compl8_and]

/-- Every run keeps the timer enabled exactly in running mode. -/
theorem run_ops_enable_matches_mode (H : Header) (ops : List Op) (s : State)
    (h : enable_matches_mode H s) : enable_matches_mode H (run_ops H ops s) := by
  induction ops generalizing s with
  | nil => exact h
  | cons o rest ih => exact ih _ (op_enable_matches_mode H o s h)

/-- Tick handling ends with the rendering of the count it leaves. -/
theorem handle_count_change_leds (H : Header) (s : State) :
    leds_show_count (handle_count_change H s) ∧
    (handle_count_change H s).count_changed = 0 := by
  have key : ∀ x : State, leds_show_count { display_count_value x with count_changed := 0 } := by
    intro x i hi
    refine (led_line_congr _ (display_count_value x) rfl rfl i).trans ?_
    rw [led_line_display x i hi, display_count_value_eq]
  by_cases hr : s.is_running = 0
  · rw [handle_count_change_setting H s hr]
    exact ⟨key _, rfl⟩
  · by_cases hc : s.count = 0
    · rw [handle_count_change_expiry H s hr hc]
      exact ⟨key _, rfl⟩
    · rw [handle_count_change_running H s hr (Nat.pos_of_ne_zero hc)]
      exact ⟨key _, rfl⟩

/-- An interrupt does not touch the count or the LED lines. -/
theorem interrupt_leds (H : Header) (i : Interrupt) (s : State) (h : leds_show_count s) :
    leds_show_count (interrupt H i s) := by
  obtain ⟨st, cc, f1, f5, a, b, c, clk, l, e⟩ := interrupt_frame H i s
  rw [e]
  exact h

/-- Interrupts do not touch the count or the LED lines. -/
theorem interrupts_leds (H : Header) (irqs : List Interrupt) (s : State)
    (h : leds_show_count s) : leds_show_count (interrupts H irqs s) := by
  induction irqs generalizing s with
  | nil => exact h
  | cons i rest ih => exact ih _ (interrupt_leds H i s h)

/-- One iteration of the main loop keeps the LED lines on the count and ends
with `count_changed` clear. -/
theorem main_loop_iteration_leds (H : Header) (s : State) (h : leds_show_count s) :
    leds_show_count (main_loop_iteration H s) ∧
    (main_loop_iteration H s).count_changed = 0 := by
  obtain ⟨-, -, ea, ed, ec, -⟩ := handle_button_presses_facts H s
  by_cases hcc : (handle_button_presses H s).count_changed = 0
  · have e : main_loop_iteration H s = handle_button_presses H s := by
      simp only [main_loop_iteration, hcc, ne_eq, not_true_eq_false, if_false]
    rw [e]
    refine ⟨?_, hcc⟩
    intro i hi
    rw [led_line_congr _ s ea ed i, ec hcc]
    exact h i hi
  · have e : main_loop_iteration H s =
        handle_count_change H (handle_button_presses H s) := by
      simp only [main_loop_iteration, hcc, ne_eq, not_false_eq_true, if_true]
    rw [e]
    exact handle_count_change_leds H _

/-- Every run of the main loop keeps the LED lines on the count and
`count_changed` clear between iterations. -/
theorem run_main_loop_leds (H : Header) (rounds : List (List Interrupt)) (s : State)
    (h : leds_show_count s) (hcc : s.count_changed = 0) :
    leds_show_count (run_main_loop H rounds s) ∧
    (run_main_loop H rounds s).count_changed = 0 := by
  induction rounds generalizing s with
  | nil => exact ⟨h, hcc⟩
  | cons irqs rest ih =>
    obtain ⟨a, b⟩ := main_loop_iteration_leds H _ (interrupts_leds H irqs s h)
    exact ih _ a b

/-- Tick handling keeps the count within 8 bits. -/
theorem handle_count_change_count_le (H : Header) (s : State) (h : s.count ≤ 255) :
    (handle_count_change H s).count ≤ 255 := by
  by_cases hr : s.is_running = 0
  · rw [handle_count_change_setting H s hr, display_count_value_eq]
    exact h
  · by_cases hc : s.count = 0
    · rw [handle_count_change_expiry H s hr hc, display_count_value_eq]
      exact Nat.zero_le _
    · rw [handle_count_change_running H s hr (Nat.pos_of_ne_zero hc), display_count_value_eq]
      show (s.count + 255) % 256 ≤ 255
      omega

/-- Interrupts do not touch the count. -/
theorem interrupts_count (H : Header) (irqs : List Interrupt) (s : State) :
    (interrupts H irqs s).count = s.count := by
  induction irqs generalizing s with
  | nil => rfl
  | cons i rest ih =>
    obtain ⟨st, cc, f1, f5, a, b, c, clk, l, e⟩ := interrupt_frame H i s
    show (interrupts H rest (interrupt H i s)).count = s.count
    rw [ih, e]

/-- Every run of the main loop keeps the count within 8 bits. -/
theorem run_main_loop_count_le (H : Header) (rounds : List (List Interrupt)) (s : State)
    (h : s.count ≤ 255) : (run_main_loop H rounds s).count ≤ 255 := by
  induction rounds generalizing s with
  | nil => exact h
  | cons irqs rest ih =>
    apply ih
    have h1 : (interrupts H irqs s).count ≤ 255 := by rw [interrupts_count]; exact h
    have h2 := (handle_button_presses_facts H (interrupts H irqs s)).2.2.2.2.2 h1
    unfold main_loop_iteration
    simp only []
    split
    · exact handle_count_change_count_le H _ h2
    · exact h2

/-- Driving PD1 high and then low leaves it low and the other bits alone. -/
theorem or_and_compl8 (x m : Nat) : (x ||| m) &&& compl8 m = x &&& compl8 m := by
  apply Nat.eq_of_testBit_eq
  intro i
  simp only [Nat.testBit_and, Nat.testBit_or, testBit_compl8]
  cases x.testBit i <;> cases m.testBit i <;> simp

/-- Clearing bits twice is clearing them once. -/
theorem and_compl8_idem (x m : Nat) : (x &&& compl8 m) &&& compl8 m = x &&& compl8 m := by
  rw [Nat.and_assoc, Nat.and_self]

/-- One more period of the square wave, at the front. -/
theorem square_wave_succ (k half_us : Nat) :
    square_wave (k + 1) half_us =
      [Event.pd1_high, Event.delay half_us, Event.pd1_low, Event.delay half_us] ++
        square_wave k half_us := by
  simp [square_wave, List.replicate_succ]

/-- The speaker loop in closed form: from `spkrCount = limit - k` it runs `k`
periods and stops with `spkrCount = limit`. -/
theorem spkr_while_exact (limit : Nat) (hl : limit < 65536) (half_us k : Nat) (s : State)
    (h : s.spkrCount + k = limit) :
    spkr_while limit hl half_us s =
      { s with
        PORTD_OUT := if k = 0 then s.PORTD_OUT else s.PORTD_OUT &&& compl8 PIN1_bm,
        spkrCount := limit,
        clock_us := s.clock_us + k * (2 * half_us),
        log := s.log ++ square_wave k half_us } := by
  induction k generalizing s with
  | zero =>
    have hge : ¬ s.spkrCount < limit := by omega
    have he : s.spkrCount = limit := by omega
    rw [spkr_while, if_neg hge]
    subst he
    simp [square_wave]
  | succ k ih =>
    have hlt : s.spkrCount < limit := by omega
    have hm : (s.spkrCount + 1) % 65536 = s.spkrCount + 1 := by omega
    rw [spkr_while, if_pos hlt]
    simp only []
    rw [ih _ (by simp only [delay_us]; omega)]
    simp only [delay_us, square_wave_succ, or_and_compl8, and_compl8_idem]
    by_cases hk : k = 0
    · subst hk
      simp [square_wave]
      ring
    · simp [hk]
      ring

/-- One iteration of the `for` loop of `play_sound`: a burst of 250 periods
and the pause of 30 ms. -/
theorem play_sound_for_step (i : Nat) (hi : i < 3) (s : State) (h0 : s.spkrCount = 0) :
    play_sound_for i s =
      play_sound_for (i + 1)
        { s with
          PORTD_OUT := s.PORTD_OUT &&& compl8 PIN1_bm,
          spkrCount := 0,
          clock_us := s.clock_us + (250 * (2 * 1276) + 30000),
          log := s.log ++ (square_wave 250 1276 ++ [Event.delay 30000]) } := by
  have hm : (i + 1) % 256 = i + 1 := by omega
  conv_lhs => rw [play_sound_for, if_pos hi]
  simp only []
  rw [spkr_while_exact 250 (by decide) 1276 250 s (by omega), hm]
  simp [delay_us, Nat.add_assoc]

/-- The `for` loop of `play_sound` in closed form. -/
theorem play_sound_for_exact (s : State) (h0 : s.spkrCount = 0) :
    play_sound_for 0 s =
      { s with
        PORTD_OUT := s.PORTD_OUT &&& compl8 PIN1_bm,
        spkrCount := 0,
        clock_us := s.clock_us + 3 * (250 * (2 * 1276) + 30000),
        log := s.log ++ (square_wave 250 1276 ++ [Event.delay 30000] ++
          (square_wave 250 1276 ++ [Event.delay 30000]) ++
          (square_wave 250 1276 ++ [Event.delay 30000])) } := by
  rw [play_sound_for_step 0 (by decide) s h0, play_sound_for_step 1 (by decide) _ rfl,
    play_sound_for_step 2 (by decide) _ rfl, play_sound_for, if_neg (by decide)]
  simp [and_compl8_idem, Nat.add_assoc]

/-- The function `play_sound` in closed form. -/
theorem play_sound_exact (s : State) :
    play_sound s =
      { s with
        play_sound_calls := s.play_sound_calls + 1,
        PORTD_OUT := s.PORTD_OUT &&& compl8 PIN1_bm,
        spkrCount := 0,
        clock_us := s.clock_us + alert_tone_us,
        log := s.log ++ alert_tone } := by
  unfold play_sound
  simp only []
  rw [play_sound_for_exact _ rfl, spkr_while_exact 1590 (by decide) 1607 1590 _ rfl]
  simp [alert_tone, alert_tone_us, and_compl8_idem, Nat.add_assoc]

/-! ## Invariants of runs and the interrupt handlers (C11 to C15) -/

/-- Claim C11 (tick source enabled only while running).  For a header whose
enable mask is not zero and does not overlap the clock-select code, in every
state reached from the initialised power-on state by any sequence of
interrupts and completed calls of `handle_button_presses` and
`handle_count_change`, the enable bit of `TCA0.SINGLE.CTRLA` is set if and
only if `is_running` is set. -/
theorem C11_tick_source_enabled_iff_running (H : Header)
    (hE : H.TCA_SINGLE_ENABLE_bm ≠ 0)
    (hD : H.TCA_SINGLE_CLKSEL_DIV64_gc &&& H.TCA_SINGLE_ENABLE_bm = 0)
    (ops : List Op) :
    ((run_ops H ops (main_init H power_on)).TCA0_CTRLA &&& H.TCA_SINGLE_ENABLE_bm ≠ 0 ↔
      (run_ops H ops (main_init H power_on)).is_running ≠ 0) := by
  have hinit : enable_matches_mode H (main_init H power_on) :=
    ⟨fun _ => hD, fun h => absurd rfl h⟩
  obtain ⟨h0, h1⟩ := run_ops_enable_matches_mode H ops _ hinit
  constructor
  · intro hne hr
    exact hne (h0 hr)
  · intro hr
    rw [h1 hr]
    exact hE

/-- Claim C11 after one press of the start button: the timer runs and is
enabled. -/
theorem C11_tick_source_enabled_iff_running_witness :
    (run_ops avr_header start_press (main_init avr_header power_on)).is_running = 1 ∧
    ((run_ops avr_header start_press (main_init avr_header power_on)).TCA0_CTRLA &&&
        avr_header.TCA_SINGLE_ENABLE_bm ≠ 0 ↔
      (run_ops avr_header start_press (main_init avr_header power_on)).is_running ≠ 0) :=
  ⟨by decide,
   C11_tick_source_enabled_iff_running avr_header (by decide) (by decide) start_press⟩

/-- Claim C12 (producers only set flags).  Each of the three interrupt
handlers leaves `count` and `is_running` unchanged and changes none of the
four flags from set to clear; the timer overflow handler sets `count_changed`
unconditionally. -/
theorem C12_producers_only_set_flags (H : Header) (PORTC_IN : Nat → Nat) (s : State) :
    ((ISR_TCA0_OVF_vect H s).count = s.count ∧
     (ISR_TCA0_OVF_vect H s).is_running = s.is_running ∧
     (ISR_TCA0_OVF_vect H s).count_changed = 1 ∧
     (ISR_TCA0_OVF_vect H s).start_button_pressed = s.start_button_pressed ∧
     (ISR_TCA0_OVF_vect H s).incr_1_pressed = s.incr_1_pressed ∧
     (ISR_TCA0_OVF_vect H s).incr_5_pressed = s.incr_5_pressed) ∧
    ((ISR_PORTC_PORT_vect PORTC_IN s).count = s.count ∧
     (ISR_PORTC_PORT_vect PORTC_IN s).is_running = s.is_running ∧
     (ISR_PORTC_PORT_vect PORTC_IN s).count_changed = s.count_changed ∧
     (ISR_PORTC_PORT_vect PORTC_IN s).start_button_pressed = s.start_button_pressed ∧
     (s.incr_1_pressed ≠ 0 → (ISR_PORTC_PORT_vect PORTC_IN s).incr_1_pressed ≠ 0) ∧
     (s.incr_5_pressed ≠ 0 → (ISR_PORTC_PORT_vect PORTC_IN s).incr_5_pressed ≠ 0)) ∧
    ((ISR_PORTD_PORT_vect PORTC_IN s).count = s.count ∧
     (ISR_PORTD_PORT_vect PORTC_IN s).is_running = s.is_running ∧
     (ISR_PORTD_PORT_vect PORTC_IN s).count_changed = s.count_changed ∧
     (ISR_PORTD_PORT_vect PORTC_IN s).incr_1_pressed = s.incr_1_pressed ∧
     (ISR_PORTD_PORT_vect PORTC_IN s).incr_5_pressed = s.incr_5_pressed ∧
     (s.start_button_pressed ≠ 0 →
       (ISR_PORTD_PORT_vect PORTC_IN s).start_button_pressed ≠ 0)) := by
  obtain ⟨f1, f5, fl, c, l, hC, m1, m5⟩ := ISR_PORTC_PORT_vect_frame PORTC_IN s
  obtain ⟨fl2, c2, l2, hD⟩ := ISR_PORTD_PORT_vect_frame PORTC_IN s
  refine ⟨⟨rfl, rfl, rfl, rfl, rfl, rfl⟩, ?_, ?_⟩
  · rw [hC]
    exact ⟨rfl, rfl, rfl, rfl, m1, m5⟩
  · rw [hD]
    refine ⟨rfl, rfl, rfl, rfl, rfl, ?_⟩
    intro hs
    show (if _ then 1 else s.start_button_pressed) ≠ 0
    split
    · decide
    · exact hs

/-- Claim C13 fails as stated: from `count_changed = 0`, `reset` returns with
`count_changed = 1`, and so does `handle_button_presses` when it applies an
increment. -/
theorem C13_counterexample :
    power_on.count_changed = 0 ∧ (reset avr_header power_on).count_changed = 1 ∧
    (setting_state 7).count_changed = 0 ∧
    ({ setting_state 7 with incr_1_pressed := 1 } : State).count_changed = 0 ∧
    (handle_button_presses avr_header
      { setting_state 7 with incr_1_pressed := 1 }).count_changed = 1 := by
  decide

/-- Claim C13 as amended.  From a state with `count_changed = 0`,
`handle_count_change` returns with `count_changed = 0`, `reset` returns with
`count_changed = 1`, and `handle_button_presses` returns with
`count_changed = 1` exactly when it stops the running timer or changes the
count, and with `count_changed = 0` otherwise. -/
theorem C13_count_changed_writers (H : Header) (s : State) (h0 : s.count_changed = 0) :
    (handle_count_change H s).count_changed = 0 ∧
    (reset H s).count_changed = 1 ∧
    ((handle_button_presses H s).count_changed = 1 ↔
      (s.start_button_pressed ≠ 0 ∧ s.is_running ≠ 0) ∨
      (handle_button_presses H s).count ≠ s.count) ∧
    ((handle_button_presses H s).count_changed = 0 ∨
      (handle_button_presses H s).count_changed = 1) := by
  have m1 : s.count < 255 → (s.count + 1) % 256 = s.count + 1 := fun h => by omega
  have m5 : s.count ≤ 250 → (s.count + 5) % 256 = s.count + 5 := fun h => by omega
  have m6 : s.count + 1 ≤ 250 → (s.count + 1 + 5) % 256 = s.count + 1 + 5 := fun h => by omega
  refine ⟨by simp [handle_count_change], by simp [reset], ?_, ?_⟩
  · by_cases hs : s.start_button_pressed = 0 <;> by_cases hr : s.is_running = 0 <;>
      by_cases h1 : s.incr_1_pressed = 0 <;> by_cases h5 : s.incr_5_pressed = 0 <;>
      by_cases c1 : s.count < 255 <;> by_cases c5 : s.count ≤ 250 <;>
      by_cases c6 : s.count + 1 ≤ 250 <;>
      first
      | omega
      | (simp [handle_button_presses, reset, start_timer, hs, hr, h1, h5, c1, c5, c6, h0, m1, m5, m6]
         try omega)
  · by_cases hs : s.start_button_pressed = 0 <;> by_cases hr : s.is_running = 0 <;>
      by_cases h1 : s.incr_1_pressed = 0 <;> by_cases h5 : s.incr_5_pressed = 0 <;>
      by_cases c1 : s.count < 255 <;> by_cases c5 : s.count ≤ 250 <;>
      by_cases c6 : s.count + 1 ≤ 250 <;>
      first
      | omega
      | simp [handle_button_presses, reset, start_timer, hs, hr, h1, h5, c1, c5, c6, h0, m1, m5, m6]

/-- Claim C13 as amended, at an increment request in setting mode. -/
theorem C13_count_changed_writers_witness :
    ({ setting_state 7 with incr_1_pressed := 1 } : State).count_changed = 0 ∧
    (handle_count_change avr_header
      { setting_state 7 with incr_1_pressed := 1 }).count_changed = 0 ∧
    (reset avr_header { setting_state 7 with incr_1_pressed := 1 }).count_changed = 1 ∧
    ((handle_button_presses avr_header
        { setting_state 7 with incr_1_pressed := 1 }).count_changed = 0 ∨
      (handle_button_presses avr_header
        { setting_state 7 with incr_1_pressed := 1 }).count_changed = 1) :=
  have h := C13_count_changed_writers avr_header
    { setting_state 7 with incr_1_pressed := 1 } rfl
  ⟨rfl, h.1, h.2.1, h.2.2.2⟩

/-- Claim C14 (ticks in setting mode are inert).  With `is_running = 0`,
applying `handle_count_change` `k ≥ 1` times gives the same state as applying
it once, leaves `count` and `is_running` unchanged and never plays the tone. -/
theorem C14_setting_ticks_inert (H : Header) (s : State) (k : Nat)
    (hr : s.is_running = 0) (hk : 1 ≤ k) :
    count_changes H k s = handle_count_change H s ∧
    (count_changes H k s).count = s.count ∧
    (count_changes H k s).is_running = s.is_running ∧
    (∀ j, j ≤ k → (count_changes H j s).play_sound_calls = s.play_sound_calls) := by
  have h1 := handle_count_change_setting H s hr
  have hr2 : (handle_count_change H s).is_running = 0 := by
    rw [h1, display_count_value_eq]; exact hr
  have key : ∀ j, ∀ t : State, t.is_running = 0 →
      count_changes H (j + 1) t = handle_count_change H t := by
    intro j
    induction j with
    | zero => intro t _; rfl
    | succ j ih =>
      intro t ht
      have ht2 : (handle_count_change H t).is_running = 0 := by
        rw [handle_count_change_setting H t ht, display_count_value_eq]; exact ht
      show count_changes H (j + 1) (handle_count_change H t) = handle_count_change H t
      rw [ih _ ht2, handle_count_change_setting_idem H t ht]
  obtain ⟨k, rfl⟩ : ∃ m, k = m + 1 := ⟨k - 1, by omega⟩
  rw [key k s hr]
  refine ⟨rfl, by rw [h1, display_count_value_eq], by rw [h1, display_count_value_eq], ?_⟩
  intro j _
  cases j with
  | zero => rfl
  | succ j => rw [key j s hr, h1, display_count_value_eq]

/-- Claim C14 at three ticks on a timer set to 5. -/
theorem C14_setting_ticks_inert_witness :
    (setting_state 5).is_running = 0 ∧
    count_changes avr_header 3 (setting_state 5) =
      handle_count_change avr_header (setting_state 5) ∧
    (count_changes avr_header 3 (setting_state 5)).count = (setting_state 5).count :=
  have h := C14_setting_ticks_inert avr_header (setting_state 5) 3 rfl (by decide)
  ⟨rfl, h.1, h.2.1⟩

/-- Claim C15 (the start-button debounce reads the line of the increment
button).  With the interrupt flag of PD6 set, the PORTD handler sets
`start_button_pressed` if and only if bit 0 of `PORTC.IN` is high when the
handler reads it; the result is the same for every content of `PORTD.IN`. -/
theorem C15_start_debounce_line (inp : Inputs) (s : State)
    (hflag : s.PORTD_INTFLAGS &&& PIN6_bm ≠ 0) :
    ((ISR_PORTD_PORT_vect_on inp s).start_button_pressed =
      if inp.PORTC_IN s.clock_us &&& PIN0_bm ≠ 0 then 1 else s.start_button_pressed) ∧
    (inp.PORTC_IN s.clock_us &&& PIN0_bm ≠ 0 →
      (ISR_PORTD_PORT_vect_on inp s).start_button_pressed = 1) ∧
    (inp.PORTC_IN s.clock_us &&& PIN0_bm = 0 →
      (ISR_PORTD_PORT_vect_on inp s).start_button_pressed = s.start_button_pressed) ∧
    (∀ inp2 : Inputs, inp2.PORTC_IN = inp.PORTC_IN →
      ISR_PORTD_PORT_vect_on inp2 s = ISR_PORTD_PORT_vect_on inp s) := by
  obtain ⟨fl, c, l, h⟩ := ISR_PORTD_PORT_vect_frame inp.PORTC_IN s
  have e : (ISR_PORTD_PORT_vect_on inp s).start_button_pressed =
      if inp.PORTC_IN s.clock_us &&& PIN0_bm ≠ 0 then 1 else s.start_button_pressed := by
    unfold ISR_PORTD_PORT_vect_on
    rw [h]
    simp [hflag]
  refine ⟨e, ?_, ?_, ?_⟩
  · intro hp
    rw [e, if_pos hp]
  · intro hp
    rw [e, if_neg (by simp [hp])]
  · intro inp2 h2
    unfold ISR_PORTD_PORT_vect_on
    rw [h2]

/-- Claim C15 with the start button released and the increment button held
down: no start request is recorded. -/
theorem C15_start_debounce_line_witness :
    start_flag_state.PORTD_INTFLAGS &&& PIN6_bm ≠ 0 ∧
    start_released_inputs.PORTD_IN start_flag_state.clock_us &&& PIN6_bm ≠ 0 ∧
    start_released_inputs.PORTC_IN start_flag_state.clock_us &&& PIN0_bm = 0 ∧
    (ISR_PORTD_PORT_vect_on start_released_inputs start_flag_state).start_button_pressed =
      start_flag_state.start_button_pressed :=
  have h := C15_start_debounce_line start_released_inputs start_flag_state (by decide)
  ⟨by decide, by decide, by decide, h.2.2.1 (by decide)⟩

/-! ## Simultaneous increments, the display, the pin configuration and the tone (C16 to C20) -/

/-- Claim C16 (order of simultaneous increments).  In setting mode with both
increment flags set and the start flag clear, `handle_button_presses` applies
`+1` first and tests the `+5` guard on the updated count: with
`c1 = min (count + 1) 255` the result is `c1 + 5` if `c1 ≤ 250` and `c1`
otherwise; 250 gives 251, 249 gives 255, the result never exceeds 255 and
both flags are cleared. -/
theorem C16_simultaneous_increments (H : Header) (s : State) (hc : s.count ≤ 255)
    (_hmode : s.is_running = 0) (hs : s.start_button_pressed = 0)
    (h1 : s.incr_1_pressed ≠ 0) (h5 : s.incr_5_pressed ≠ 0) :
    (handle_button_presses H s).count =
      (if min (s.count + 1) 255 ≤ 250 then min (s.count + 1) 255 + 5
       else min (s.count + 1) 255) ∧
    (s.count = 250 → (handle_button_presses H s).count = 251) ∧
    (s.count = 249 → (handle_button_presses H s).count = 255) ∧
    (handle_button_presses H s).count ≤ 255 ∧
    (handle_button_presses H s).incr_1_pressed = 0 ∧
    (handle_button_presses H s).incr_5_pressed = 0 := by
  have m1 : s.count < 255 → (s.count + 1) % 256 = s.count + 1 := fun h => by omega
  have m6 : s.count + 1 ≤ 250 → (s.count + 1 + 5) % 256 = s.count + 1 + 5 := fun h => by omega
  by_cases c1 : s.count < 255 <;> by_cases c5 : s.count ≤ 250 <;>
    by_cases c6 : s.count + 1 ≤ 250 <;>
    first
    | omega
    | (simp [handle_button_presses, hs, h1, h5, c1, c5, c6, m1, m6]
       try omega)

/-- Claim C16 at the count 250: the `+5` is dropped. -/
theorem C16_simultaneous_increments_witness :
    (both_increments_state 250).count = 250 ∧
    (handle_button_presses avr_header (both_increments_state 250)).count = 251 ∧
    (handle_button_presses avr_header (both_increments_state 250)).incr_1_pressed = 0 ∧
    (handle_button_presses avr_header (both_increments_state 250)).incr_5_pressed = 0 :=
  have h := C16_simultaneous_increments avr_header (both_increments_state 250)
    (by decide) rfl rfl (by decide) (by decide)
  ⟨rfl, h.2.1 rfl, h.2.2.2.2.1, h.2.2.2.2.2⟩

/-- Claim C17 (the display always matches the count).  From the initialised
power-on state, after every completed iteration of the main loop, whatever
interrupts ran before each iteration, `count_changed` is 0, each of the eight
LED lines shows its bit of the count, and the count fits in 8 bits. -/
theorem C17_display_matches_count (H : Header) (rounds : List (List Interrupt)) :
    (run_main_loop H rounds (main_init H power_on)).count_changed = 0 ∧
    (∀ i, i < 8 →
      led_line (run_main_loop H rounds (main_init H power_on)) i =
        (run_main_loop H rounds (main_init H power_on)).count.testBit i) ∧
    (run_main_loop H rounds (main_init H power_on)).count ≤ 255 := by
  have hinit : leds_show_count (main_init H power_on) := by
    intro i hi
    interval_cases i <;> simp [led_line, main_init, init_tca, init_io, power_on]
  obtain ⟨a, b⟩ := run_main_loop_leds H rounds _ hinit rfl
  exact ⟨b, a, run_main_loop_count_le H rounds _ (Nat.zero_le 255)⟩

/-- Claim C18 fails on the code.  With the values of the device header,
`init_io` leaves the input-sense field of `PORTC.PIN0CTRL` and
`PORTC.PIN1CTRL` at the rising-edge code `0x02`; `start_timer` ORs the
input-disable code `0x04` into it, which leaves `0x06` and not `0x04`. -/
theorem C18_start_leaves_reserved_code :
    (main_init avr_header power_on).PORTC_PIN0CTRL &&& avr_header.PORT_ISC_gm =
      avr_header.PORT_ISC_RISING_gc ∧
    (main_init avr_header power_on).PORTC_PIN1CTRL &&& avr_header.PORT_ISC_gm =
      avr_header.PORT_ISC_RISING_gc ∧
    (start_timer avr_header (main_init avr_header power_on)).PORTC_PIN0CTRL &&&
      avr_header.PORT_ISC_gm = 0x06 ∧
    (start_timer avr_header (main_init avr_header power_on)).PORTC_PIN1CTRL &&&
      avr_header.PORT_ISC_gm = 0x06 ∧
    (start_timer avr_header (main_init avr_header power_on)).PORTC_PIN0CTRL &&&
      avr_header.PORT_ISC_gm ≠ avr_header.PORT_ISC_INPUT_DISABLE_gc := by
  decide

/-- Claim C19 (reset re-enables the increment inputs).  For a header whose
rising-edge and input-disable codes lie within the input-sense mask, after
`reset` the input-sense field of `PORTC.PIN0CTRL` and of `PORTC.PIN1CTRL` is
the rising-edge code and every bit outside the mask is unchanged, for every
prior content; hence `start_timer` followed by `reset` gives back an 8-bit
register whose field held the rising-edge code, as `init_io` leaves it. -/
theorem C19_reset_restores (H : Header) (s : State)
    (hR : H.PORT_ISC_RISING_gc &&& H.PORT_ISC_gm = H.PORT_ISC_RISING_gc)
    (hD : H.PORT_ISC_INPUT_DISABLE_gc &&& H.PORT_ISC_gm = H.PORT_ISC_INPUT_DISABLE_gc) :
    ((reset H s).PORTC_PIN0CTRL &&& H.PORT_ISC_gm = H.PORT_ISC_RISING_gc ∧
     (reset H s).PORTC_PIN1CTRL &&& H.PORT_ISC_gm = H.PORT_ISC_RISING_gc) ∧
    (∀ i, i < 8 → H.PORT_ISC_gm.testBit i = false →
      (reset H s).PORTC_PIN0CTRL.testBit i = s.PORTC_PIN0CTRL.testBit i ∧
      (reset H s).PORTC_PIN1CTRL.testBit i = s.PORTC_PIN1CTRL.testBit i) ∧
    (s.PORTC_PIN0CTRL < 256 → s.PORTC_PIN0CTRL &&& H.PORT_ISC_gm = H.PORT_ISC_RISING_gc →
      (reset H (start_timer H s)).PORTC_PIN0CTRL = s.PORTC_PIN0CTRL) ∧
    (s.PORTC_PIN1CTRL < 256 → s.PORTC_PIN1CTRL &&& H.PORT_ISC_gm = H.PORT_ISC_RISING_gc →
      (reset H (start_timer H s)).PORTC_PIN1CTRL = s.PORTC_PIN1CTRL) := by
  refine ⟨⟨field_after_clear _ _ _ hR, field_after_clear _ _ _ hR⟩, ?_, ?_, ?_⟩
  · intro i hi hg
    exact ⟨outside_after_clear _ _ _ hR i hi hg, outside_after_clear _ _ _ hR i hi hg⟩
  · intro hp hf
    exact restore_after_set _ _ _ _ hp hf hD
  · intro hp hf
    exact restore_after_set _ _ _ _ hp hf hD

/-- Claim C19 on the configuration `init_io` leaves at power-on. -/
theorem C19_reset_restores_witness :
    (main_init avr_header power_on).PORTC_PIN0CTRL = 0x0A ∧
    (start_timer avr_header (main_init avr_header power_on)).PORTC_PIN0CTRL = 0x0E ∧
    (reset avr_header (start_timer avr_header (main_init avr_header power_on))).PORTC_PIN0CTRL =
      (main_init avr_header power_on).PORTC_PIN0CTRL ∧
    (reset avr_header (start_timer avr_header (main_init avr_header power_on))).PORTC_PIN1CTRL =
      (main_init avr_header power_on).PORTC_PIN1CTRL :=
  have h := C19_reset_restores avr_header (main_init avr_header power_on) (by decide)
    (by decide)
  ⟨by decide, by decide, h.2.2.1 (by decide) (by decide), h.2.2.2 (by decide) (by decide)⟩

/-- Claim C20 (the alert tone runs to completion).  For every state,
`play_sound` returns after writing exactly the alert tone to the speaker line
(three bursts of 250 periods, each followed by a pause, then one burst of 1590
periods); it leaves PD1 low and the other bits of `PORTD.OUT` unchanged, and
does not modify `count`, `is_running` or any flag. -/
theorem C20_alert_tone_completes (s : State) :
    (play_sound s).log = s.log ++ alert_tone ∧
    (play_sound s).clock_us = s.clock_us + alert_tone_us ∧
    (play_sound s).PORTD_OUT.testBit 1 = false ∧
    (∀ i, i < 8 → i ≠ 1 → (play_sound s).PORTD_OUT.testBit i = s.PORTD_OUT.testBit i) ∧
    (play_sound s).count = s.count ∧
    (play_sound s).is_running = s.is_running ∧
    (play_sound s).start_button_pressed = s.start_button_pressed ∧
    (play_sound s).incr_1_pressed = s.incr_1_pressed ∧
    (play_sound s).incr_5_pressed = s.incr_5_pressed ∧
    (play_sound s).count_changed = s.count_changed ∧
    (play_sound s).play_sound_calls = s.play_sound_calls + 1 := by
  rw [play_sound_exact]
  refine ⟨rfl, rfl, ?_, ?_, rfl, rfl, rfl, rfl, rfl, rfl, rfl⟩
  · obtain ⟨-, h1, -⟩ := PIN_bm_eq
    show (s.PORTD_OUT &&& compl8 PIN1_bm).testBit 1 = false
    rw [Nat.testBit_and, testBit_compl8, h1, Nat.testBit_two_pow_self]
    simp
  · intro i hi hne
    obtain ⟨-, h1, -⟩ := PIN_bm_eq
    have hn : ¬ 1 = i := fun h => hne h.symm
    show (s.PORTD_OUT &&& compl8 PIN1_bm).testBit i = s.PORTD_OUT.testBit i
    rw [Nat.testBit_and, testBit_compl8, h1, Nat.testBit_two_pow]
    simp [hi, hn]

end Timer
